import Mathlib

/-!
# Verification of the `analyze-policy` pipeline

Shallow embedding of the health-insurance policy analysis service found in
this repository.  The repository contains several revisions of the same
Supabase edge function:

* `src/supabase/functions/analyze-policy/index.ts` holds two revisions:
  a regex-only revision (`VERSION = "6.0.0"`, first document, embedded in
  namespace `V6`) and a Gemini-backed revision with an in-memory cache
  (`CONFIG.system.version = "3.0.0"`, second document, embedded in
  namespace `V3`).
* `src/unnamed/part_003` is revision 9.0.0 (Claude tool-use), namespace `P3`.
* `src/unnamed/part_004` is revision 4.0.0, namespace `P4`.
* `src/unnamed/part_005` is revision 3.1.0 (hybrid validation), namespace `P5`.
* `src/unnamed/part_006` is an early cached revision whose category enum
  uses `BAD` instead of `RED_FLAG`, namespace `P6`.

Modelling conventions used throughout:

* TypeScript strings are modelled as `List Char` (`Str`), so that
  `substring`, `includes`, `trim`, … are plain list programs.
* TypeScript `number` values in the embedded fragments are integers in
  every execution path the theorems touch; they are modelled as `Int`
  (month/day counts, percentages, amounts) or `Nat` (lengths, indices).
* Comparisons that the source writes against floating-point constants are
  replaced by the exactly-equivalent integer comparison; each such place
  carries a comment computing the float value (e.g. the JS product
  `100000 * 0.7` rounds to the double `70000.0` exactly, so the source
  test `breakPoint > start + chunkSize * 0.7` holds iff `breakPoint >
  start + 70000`).
* LLM calls (`fetch` to Gemini / Claude) are modelled by oracle functions
  passed as parameters; a call either yields a parsed value or an error
  message (`Except`), summarising the retry loop of `callGemini`.  Handlers
  additionally return the number of oracle invocations they performed, so
  "no call to the LLM is made" is the statement that this count is `0`.
* The JavaScript `Map` used as cache is an insertion-ordered association
  list (head = oldest entry), matching `Map` iteration order.
-/

set_option maxHeartbeats 1000000

/-- TypeScript strings are modelled as lists of characters. -/
abbrev Str := List Char

namespace JS

/-- ASCII lowercasing of one character (the embedded keyword tables and all
concrete inputs are ASCII, so this coincides with JS `toLowerCase`). -/
def lowerChar (c : Char) : Char :=
  if 'A' ≤ c ∧ c ≤ 'Z' then Char.ofNat (c.toNat + 32) else c

/-- JS `String.prototype.toLowerCase`. -/
def toLowerStr (s : Str) : Str := s.map lowerChar

/-- Does `hay` start with `pat`?  (Bool-valued prefix test.) -/
def startsWith : Str → Str → Bool
  | _, [] => true
  | [], _ :: _ => false
  | a :: as, b :: bs => a = b && startsWith as bs

/-- JS `hay.includes(pat)`: substring occurrence test. -/
def includesStr (hay pat : Str) : Bool :=
  hay.tails.any (fun t => startsWith t pat)

/-- JS whitespace characters relevant to `trim` / `\s`. -/
def isWs (c : Char) : Bool :=
  c = ' ' || c = '\n' || c = '\t' || c = '\r'

/-- JS `String.prototype.trim`. -/
def trimStr (s : Str) : Str :=
  ((s.dropWhile isWs).reverse.dropWhile isWs).reverse

/-- JS `text.substring(start, stop)` for `start ≤ stop` (both clamped to the
text length), which is the only way the sources call it. -/
def substring (s : Str) (start stop : Nat) : Str :=
  (s.take stop).drop start

/-- JS `text.substring(0, stop)`. -/
def substringTo (s : Str) (stop : Nat) : Str := s.take stop

/-- One step of `replace(/\s+/g, ' ')`: `true` while inside a whitespace
run. -/
def collapseWsAux : Bool → Str → Str
  | _, [] => []
  | inRun, c :: cs =>
    if isWs c then
      if inRun then collapseWsAux true cs else ' ' :: collapseWsAux true cs
    else c :: collapseWsAux false cs

/-- JS `replace(/\s+/g, ' ')`: every maximal whitespace run becomes a single
space. -/
def collapseWs (s : Str) : Str := collapseWsAux false s

/-- Render an integer the way a JS template literal renders a number
(`${24}` is `"24"`, `${-5}` is `"-5"`). -/
def intStr (n : Int) : Str := (toString n).toList

/-- Render an optional integer the way a JS template literal renders it:
`null` prints as `"null"`. -/
def intOptStr : Option Int → Str
  | some n => intStr n
  | none => "null".toList

/-- Render an optional integer reached through `?.`: `undefined` prints as
`"undefined"`. -/
def intUndefStr : Option Int → Str
  | some n => intStr n
  | none => "undefined".toList

/-- Insert `,` every three digits from the right (en-US grouping), acting on
a digit list. -/
def group3 (ds : List Char) : List Char :=
  let rec go : List Char → Nat → List Char
    | [], _ => []
    | d :: rest, k =>
      if k = 3 ∨ k = 6 ∨ k = 9 ∨ k = 12 ∨ k = 15 then
        d :: ',' :: go rest (k + 1)
      else d :: go rest (k + 1)
  (go ds.reverse 1).reverse

/-- JS `Number.prototype.toLocaleString()` for the integer values that reach
it in the sources. -/
def toLocaleStr (n : Int) : Str :=
  if n < 0 then '-' :: group3 (toString (-n)).toList
  else group3 (toString n).toList

end JS

/-- The category enum shared by revisions 3.0.0, 3.1.0, 4.0.0, 6.0.0 and
9.0.0: `type Category = "GREAT" | "GOOD" | "RED_FLAG" | "UNCLEAR"`. -/
inductive Category where
  | great | good | redFlag | unclear
  deriving DecidableEq, Repr

/-- Category enum of `src/unnamed/part_006`:
`type Category = "GREAT" | "GOOD" | "BAD" | "UNCLEAR"`. -/
inductive CategoryB where
  | great | good | bad | unclear
  deriving DecidableEq, Repr

/-- Formatted feature as emitted in the response arrays (`format` /
`formatFeature` / `fmt` in the various revisions): `{ name, policyStates,
reference, explanation }`. -/
structure FmtFeature where
  name : Str
  policyStates : Str
  reference : Str
  explanation : Str
  deriving DecidableEq, Repr

/-! ## Namespace `V6` — revision 6.0.0 (regex-only, first document of
`src/supabase/functions/analyze-policy/index.ts`) -/

namespace V6

/-- `validateDocument` result `{ valid: boolean; error?: string }`. -/
structure Verdict where
  valid : Bool
  error : Option Str := none
  deriving DecidableEq, Repr

/-- The health-insurance keyword list of `validateDocument`
(`index.ts` line 20). -/
def healthKeywords : List Str :=
  ["hospitalization", "sum insured", "cashless", "pre-existing",
   "waiting period", "irdai", "health insurance", "claim"].map String.toList

/-- `validateDocument` (`index.ts` lines 15–26): reject texts shorter than
500 characters, then require at least 3 health keywords in the lowercased
first 10 000 characters. -/
def validateDocument (text : Str) : Verdict :=
  if text.length < 500 then
    { valid := false, error := some "Document too short.".toList }
  else
    let lower := JS.toLowerStr (JS.substringTo text 10000)
    let hits := healthKeywords.filter (fun kw => JS.includesStr lower kw)
    if hits.length < 3 then
      { valid := false,
        error := some "Not a health insurance policy document.".toList }
    else { valid := true }

/-- One entry of the `FEATURES` configuration record (`index.ts` line 29). -/
structure FeatureConfig where
  name : Str
  lowerBetter : Option Bool := none
  great : Option Int := none
  redFlag : Option Int := none
  greatTerms : Option (List Str) := none
  redFlagTerms : Option (List Str) := none

/-- The `FEATURES` threshold/term table (`index.ts` lines 29–44).  Note the
PED row: `{ lowerBetter: true, great: 24, redFlag: 48 }`. -/
def FEATURES (id : Str) : Option FeatureConfig :=
  if id = "pedWaiting".toList then
    some { name := "Pre-Existing Disease Waiting".toList,
           lowerBetter := some true, great := some 24, redFlag := some 48 }
  else if id = "specificIllnessWaiting".toList then
    some { name := "Specific Illness Waiting".toList,
           lowerBetter := some true, great := some 12, redFlag := some 24 }
  else if id = "initialWaiting".toList then
    some { name := "Initial Waiting Period".toList,
           lowerBetter := some true, great := some 0, redFlag := some 30 }
  else if id = "preHospitalization".toList then
    some { name := "Pre-Hospitalization".toList,
           lowerBetter := some false, great := some 60, redFlag := some 30 }
  else if id = "postHospitalization".toList then
    some { name := "Post-Hospitalization".toList,
           lowerBetter := some false, great := some 180, redFlag := some 60 }
  else if id = "roomRent".toList then
    some { name := "Room Rent".toList,
           greatTerms := some (["no limit", "no cap", "any room"].map String.toList),
           redFlagTerms := some (["proportionate", "capped", "daily limit"].map String.toList) }
  else if id = "coPay".toList then
    some { name := "Co-payment".toList,
           greatTerms := some (["no co-pay", "nil", "0%"].map String.toList),
           redFlagTerms := some (["mandatory", "all claims"].map String.toList) }
  else if id = "restore".toList then
    some { name := "Restore Benefit".toList,
           greatTerms := some (["unlimited", "100%", "same illness"].map String.toList),
           redFlagTerms := some (["not available", "no restore"].map String.toList) }
  else if id = "consumables".toList then
    some { name := "Consumables".toList,
           greatTerms := some (["fully covered", "no sub-limit"].map String.toList),
           redFlagTerms := some (["not covered", "excluded"].map String.toList) }
  else if id = "daycare".toList then
    some { name := "Day Care Procedures".toList,
           lowerBetter := some false, great := some 500, redFlag := some 100 }
  else if id = "networkHospitals".toList then
    some { name := "Network Hospitals".toList,
           lowerBetter := some false, great := some 10000, redFlag := some 3000 }
  else if id = "ncb".toList then
    some { name := "No Claim Bonus".toList,
           lowerBetter := some false, great := some 50, redFlag := some 10 }
  else if id = "modernTreatments".toList then
    some { name := "Modern Treatments".toList,
           greatTerms := some (["fully covered"].map String.toList),
           redFlagTerms := some (["not covered", "excluded"].map String.toList) }
  else if id = "ayush".toList then
    some { name := "AYUSH Treatment".toList,
           greatTerms := some (["covered", "included"].map String.toList),
           redFlagTerms := some (["not covered", "excluded"].map String.toList) }
  else none

/-- `classifyFeature` (`index.ts` lines 48–70): unknown ids default to GOOD;
term rules fire first (red-flag terms before great terms); then numeric
thresholds; otherwise GOOD. -/
def classifyFeature (id : Str) (value : Str) (numVal : Option Int) : Category :=
  match FEATURES id with
  | none => .good
  | some config =>
    let lower := JS.toLowerStr value
    if (config.redFlagTerms.getD []).any (fun t => JS.includesStr lower t) then .redFlag
    else if (config.greatTerms.getD []).any (fun t => JS.includesStr lower t) then .great
    else
      match numVal, config.great, config.redFlag with
      | some n, some g, some r =>
        if config.lowerBetter.getD false then
          if n ≤ g then .great
          else if n ≥ r then .redFlag
          else .good
        else
          if n ≥ g then .great
          else if n ≤ r then .redFlag
          else .good
      | _, _, _ => .good

/-- A raw feature produced by `extractFeaturesFromText`:
`{id: string; value: string; num?: number}`. -/
structure RawFeature where
  id : Str
  value : Str
  num : Option Int := none

/-- A classified feature as built in `serve` (`index.ts` lines 224–234). -/
structure Feature where
  name : Str
  policyStates : Str
  reference : Str
  explanation : Str
  category : Category

/-- The success-response shape of revision 6.0.0 (`index.ts` lines 249–270). -/
structure Result where
  policyName : Str
  insurer : Str
  sumInsured : Str
  policyType : Str
  summaryGreat : Nat
  summaryGood : Nat
  summaryRedFlags : Nat
  summaryUnclear : Nat
  greatFeatures : List FmtFeature
  goodFeatures : List FmtFeature
  redFlags : List FmtFeature
  needsClarification : List FmtFeature
  disclaimer : Str
  metaVersion : Str
  metaProcessingTimeMs : Nat
  metaFeatures : Nat

/-- Classification step of `serve` (`index.ts` lines 224–234): each raw
feature is classified by `classifyFeature`, the display name comes from the
`FEATURES` table (`config?.name || f.id`). -/
def classifyAll (raws : List RawFeature) : List Feature :=
  raws.map (fun f =>
    let category := classifyFeature f.id f.value f.num
    let nm := match FEATURES f.id with
      | some config => config.name
      | none => f.id
    { name := nm, policyStates := f.value, reference := [],
      explanation := nm ++ ": ".toList ++ f.value, category := category })

/-- The `format` projection of `serve` (`index.ts` lines 242–247). -/
def format (f : Feature) : FmtFeature :=
  { name := f.name, policyStates := f.policyStates,
    reference := f.reference, explanation := f.explanation }

/-- Response assembly of `serve` (`index.ts` lines 236–270): bucket the
classified features by category, count them, and emit the fixed header
fields of revision 6.0.0. -/
def buildResult (raws : List RawFeature) (procMs : Nat) : Result :=
  let allFeatures := classifyAll raws
  let great := allFeatures.filter (fun f => f.category = .great)
  let good := allFeatures.filter (fun f => f.category = .good)
  let redFlags := allFeatures.filter (fun f => f.category = .redFlag)
  let unclear := allFeatures.filter (fun f => f.category = .unclear)
  { policyName := "Health Insurance Policy".toList,
    insurer := "See document".toList,
    sumInsured := "See policy schedule".toList,
    policyType := "Health Insurance".toList,
    summaryGreat := great.length,
    summaryGood := good.length,
    summaryRedFlags := redFlags.length,
    summaryUnclear := unclear.length,
    greatFeatures := great.map format,
    goodFeatures := good.map format,
    redFlags := redFlags.map format,
    needsClarification := unclear.map format,
    disclaimer := ("This analysis is based on keyword extraction. " ++
      "Please verify all details with your insurer.").toList,
    metaVersion := "6.0.0".toList,
    metaProcessingTimeMs := procMs,
    metaFeatures := allFeatures.length }

/-- Shape of the catch-all error response (`index.ts` lines 279–285). -/
structure CatchResp where
  status : Nat
  error : Str
  debug : Option Str

/-- The catch-all handler of revision 6.0.0 (`index.ts` lines 279–285):
`500` with a fixed user-facing message and `_debug: error.message`. -/
def catchResponse (msg : Str) : CatchResp :=
  { status := 500, error := "Analysis failed. Please try again.".toList,
    debug := some msg }

end V6

/-- Render a category the way JS template literals render the string enum. -/
def Category.str : Category → Str
  | .great => "GREAT".toList
  | .good => "GOOD".toList
  | .redFlag => "RED_FLAG".toList
  | .unclear => "UNCLEAR".toList

/-! ## Generic document chunking

Both `chunkDocument` implementations (revision 3.0.0 / 3.1.0 and
`part_006`) run the same `while` loop and differ only in how the window end
is chosen; the loop is embedded once, parametrised by the end function.
The loop guard `chunks.length < maxChunks` becomes the fuel argument. -/

/-- JS `text.lastIndexOf(pat, pos)`: the largest index `i ≤ pos` at which
`pat` occurs in `text`, as an `Option` (`none` models the JS result `-1`). -/
def jsLastIndexOf (text pat : Str) : Nat → Option Nat
  | 0 => if JS.startsWith text pat then some 0 else none
  | i + 1 =>
    if JS.startsWith (text.drop (i + 1)) pat then some (i + 1)
    else jsLastIndexOf text pat i

/-- The chunking `while` loop of `chunkDocument`, common to revisions 3.0.0,
3.1.0 and `part_006`: collect `(start, end)` windows, each next start being
`end - overlap`, stopping when the text is exhausted or `fuel` (the
remaining allowance out of `maxChunks`) runs out. -/
def chunkBoundsAux (endFn : Nat → Nat) (overlap len : Nat) :
    Nat → Nat → List (Nat × Nat)
  | _, 0 => []
  | start, fuel + 1 =>
    if start < len then
      (start, endFn start) :: chunkBoundsAux endFn overlap len (endFn start - overlap) fuel
    else []

/-- "Each window after the first starts `overlap` characters before the
previous window's end": the first window starts at `start`, and recursively
the tail is chained from `end - overlap`. -/
def Chained (overlap : Nat) : Nat → List (Nat × Nat) → Prop
  | _, [] => True
  | start, (s, e) :: rest => s = start ∧ Chained overlap (e - overlap) rest

/-- End position of the last window (`d` when there is no window). -/
def lastEnd : List (Nat × Nat) → Nat → Nat
  | [], d => d
  | (_, e) :: rest, _ => lastEnd rest e

/-! ## Namespace `V3` — revision 3.0.0 (Gemini + in-memory cache, second
document of `src/supabase/functions/analyze-policy/index.ts`) -/

namespace V3

/-! ### Configuration (`CONFIG`, `index.ts` lines 299–361) -/

def chunkSize : Nat := 100000
def chunkOverlap : Nat := 2000
def maxChunks : Nat := 5
def minLength : Nat := 500
def validationSample : Nat := 4000
def ttlSeconds : Nat := 604800
def maxEntries : Nat := 100
def version : Str := "3.0.0".toList

/-! ### Types -/

/-- A feature entry of the Gemini extraction (`extractionSchema`,
`index.ts` lines 758–781).  The schema gives each feature key its own field
set; this record is their union, mirroring the dynamically-typed JS objects
(a field that a given feature does not carry stays at its default, which is
exactly how JS `undefined` behaves in every use below).  `Option` fields
model `null`/absent values. -/
structure FeatEntry where
  found : Bool := false
  months : Option Int := none
  days : Option Int := none
  quote : Option Str := none
  reference : Option Str := none
  rawValue : Str := []
  hasLimit : Bool := false
  limitAmount : Option Int := none
  limitType : Str := []
  hasProportionateDeduction : Bool := false
  percentage : Option Int := none
  isOptional : Bool := false
  optionalCoverName : Option Str := none
  appliesToAllAges : Bool := false
  isZoneBased : Bool := false
  available : Bool := false
  sameIllnessCovered : Bool := false
  unlimited : Bool := false
  covered : Bool := false
  fullyCovered : Bool := false
  count : Option Int := none
  percentagePerYear : Option Int := none
  maxAccumulation : Option Int := none
  daysPerTrip : Option Int := none
  hasCoPay : Bool := false
  coPayPercentage : Option Int := none
  hasSubLimits : Bool := false
  details : Str := []
  deriving DecidableEq, Repr

/-- `quote?.length || 0` as used by `mergeExtractions`. -/
def FeatEntry.quoteLen (f : FeatEntry) : Nat :=
  match f.quote with
  | some q => q.length
  | none => 0

/-- A unique feature reported by the extraction
(`uniqueFeatures` items: `{ name, description, quote, reference }`). -/
structure UF where
  name : Str
  description : Str
  quote : Str
  reference : Str
  deriving DecidableEq, Repr

/-- An unclear clause reported by the extraction
(`unclearClauses` items: `{ name, issue, quote, reference }`). -/
structure UC where
  name : Str
  issue : Str
  quote : Str
  reference : Str
  deriving DecidableEq, Repr

/-- A Gemini extraction result (`extractionSchema`): `policyInfo` and
`features` are modelled as key-indexed partial maps, mirroring the
`Object.entries` iteration of `mergeExtractions`. -/
structure Extraction where
  policyInfo : Str → Option Str
  features : Str → Option FeatEntry
  uniqueFeatures : List UF
  unclearClauses : List UC

/-- Result of the Gemini validation call (`validationSchema`). -/
structure ValidationOut where
  isHealthInsurance : Bool
  documentType : Str
  reason : Str
  insurerName : Str

/-- Result of the unique-feature judgment call (`uniqueJudgmentSchema`). -/
structure JudgeOut where
  category : Category
  explanation : Str

/-- `interface AnalyzedFeature` (`index.ts` lines 369–377). -/
structure AnalyzedFeature where
  name : Str
  category : Category
  policyStates : Str
  reference : Str
  explanation : Str
  classifiedBy : Str
  ruleApplied : Option Str := none

/-- `interface CacheEntry` (`index.ts` lines 379–383), generic over the
stored result value. -/
structure CacheEntry (α : Type) where
  result : α
  timestamp : Nat
  version : Str

/-- The process-local `Map` cache, as an insertion-ordered association list
(head = oldest inserted key, matching `Map` iteration order). -/
abbrev Cache (α : Type) := List (Str × CacheEntry α)

/-! ### Cache operations (`index.ts` lines 391–417) -/

/-- The normalisation applied by `hashDocument` before hashing
(`index.ts` line 393): `text.trim().toLowerCase().replace(/\s+/g, ' ')`.
The SHA-256 digest itself is a Web-Crypto library call, so `hashDocument`
takes the digest function as a parameter. -/
def hashNormalize (text : Str) : Str :=
  JS.collapseWs (JS.toLowerStr (JS.trimStr text))

/-- `hashDocument` (`index.ts` lines 391–397), with the SHA-256 digest
abstracted as `sha`. -/
def hashDocument (sha : Str → Str) (text : Str) : Str :=
  sha (hashNormalize text)

/-- JS `Map.prototype.set`: update in place if the key exists (keeping its
insertion position), otherwise append at the end. -/
def mapSet {α : Type} : Cache α → Str → CacheEntry α → Cache α
  | [], k, v => [(k, v)]
  | (k', v') :: rest, k, v =>
    if k' = k then (k, v) :: rest else (k', v') :: mapSet rest k v

/-- JS `Map.prototype.delete` (first — and in a real `Map` only —
occurrence). -/
def mapDelete {α : Type} : Cache α → Str → Cache α
  | [], _ => []
  | (k', v') :: rest, k =>
    if k' = k then rest else (k', v') :: mapDelete rest k

/-- JS `Map.prototype.get`. -/
def mapGet {α : Type} : Cache α → Str → Option (CacheEntry α)
  | [], _ => none
  | (k', v') :: rest, k => if k' = k then some v' else mapGet rest k

/-- `getCached` (`index.ts` lines 399–408): miss on absent key or version
mismatch; on TTL expiry delete the entry and miss; otherwise return the
stored result unchanged.  The JS expiry test
`(Date.now() - entry.timestamp) / 1000 > ttlSeconds` is an exact float
comparison equivalent to `now - timestamp > ttlSeconds * 1000`. -/
def getCached {α : Type} (cache : Cache α) (hash : Str) (now : Nat) :
    Option α × Cache α :=
  match mapGet cache hash with
  | none => (none, cache)
  | some entry =>
    if entry.version ≠ version then (none, cache)
    else if now - entry.timestamp > ttlSeconds * 1000 then
      (none, mapDelete cache hash)
    else (some entry.result, cache)

/-- `setCache` (`index.ts` lines 410–417): insert the entry, then if the map
exceeds `maxEntries` evict the oldest key (the first key in insertion
order). -/
def setCache {α : Type} (cache : Cache α) (hash : Str) (result : α)
    (now : Nat) : Cache α :=
  let c := mapSet cache hash { result := result, timestamp := now, version := version }
  if c.length > maxEntries then
    match c with
    | [] => c
    | (k0, _) :: _ => mapDelete c k0
  else c

/-- The cached-response branch of `serve` (`index.ts` line 885):
`{ ...cached, _cached: true }` — the stored result together with the
`_cached` flag. -/
def cachedResponse {α : Type} (cached : α) : α × Bool := (cached, true)

/-! ### Utility functions (`index.ts` lines 419–463) -/

/-- Numeric sanity bounds (`CONFIG.system.bounds`). -/
def bounds : Str → Int × Int := fun t =>
  if t = "months".toList then (0, 120)
  else if t = "days".toList then (0, 730)
  else if t = "percentage".toList then (0, 100)
  else if t = "count".toList then (0, 100000)
  else (0, 1000000000)

/-- `sanitizeNumber` (`index.ts` lines 419–423): `null` passes through,
otherwise round (identity on integers) and clamp into the bounds of the
given numeric type. -/
def sanitizeNumber (value : Option Int) (t : Str) : Option Int :=
  match value with
  | none => none
  | some v =>
    let (lo, hi) := bounds t
    some (max lo (min hi v))

/-- `validateQuote` (`index.ts` lines 425–437).  The word-fraction test
`matches >= words.length * 0.6` is an exact float comparison equivalent to
`5 * matches ≥ 3 * words.length` (the double `n * 0.6` never crosses an
integer relative to the real product `0.6 n`). -/
def validateQuote (quote : Option Str) (document : Str) : Bool :=
  match quote with
  | none => false
  | some q =>
    if q.length < 10 then false
    else
      let normalizedQuote := JS.trimStr (JS.collapseWs (JS.toLowerStr q))
      let normalizedDoc := JS.collapseWs (JS.toLowerStr document)
      if JS.includesStr normalizedDoc normalizedQuote then true
      else
        let words := (normalizedQuote.splitOn ' ').filter (fun w => w.length > 4)
        if words.length < 3 then true
        else
          let nMatches := (words.filter (fun w => JS.includesStr normalizedDoc w)).length
          5 * nMatches ≥ 3 * words.length

/-- Window-end selection of `chunkDocument` (`index.ts` lines 445–449):
stretch to `start + chunkSize`, but prefer the last `"\n\n"` break before
that point when it lies beyond 70 % of the window.  The JS guard
`breakPoint > start + chunkSize * 0.7` compares against the double
`70000.0` (the product rounds to exactly `70000`), so it holds iff
`breakPoint > start + 70000`. -/
def chunkEnd (text : Str) (start : Nat) : Nat :=
  let e0 := start + chunkSize
  if e0 < text.length then
    match jsLastIndexOf text "\n\n".toList e0 with
    | some b => if start + 70000 < b then b else e0
    | none => e0
  else e0

/-- Window bounds produced by the `while` loop of `chunkDocument`. -/
def chunkBounds (text : Str) : List (Nat × Nat) :=
  chunkBoundsAux (chunkEnd text) chunkOverlap text.length 0 maxChunks

/-- `chunkDocument` (`index.ts` lines 439–454): texts of at most
`chunkSize` characters stay whole; longer texts become the substring
windows of `chunkBounds`. -/
def chunkDocument (text : Str) : List Str :=
  if text.length ≤ chunkSize then [text]
  else (chunkBounds text).map (fun p => JS.substring text p.1 p.2)

/-- `getUserFriendlyError` (`index.ts` lines 456–463). -/
def getUserFriendlyError (msg : Str) : Str :=
  if JS.includesStr msg "429".toList then
    "Service busy. Please try again in a moment.".toList
  else if JS.includesStr msg "400".toList then
    "Could not process document. Please ensure it".toList ++ ['\''] ++ "s a valid PDF.".toList
  else if JS.includesStr msg "401".toList ∨ JS.includesStr msg "403".toList then
    "Service configuration error. Contact support.".toList
  else if JS.includesStr msg "timeout".toList then
    "Analysis taking too long. Try a smaller document.".toList
  else "Analysis failed. Please try again.".toList

/-! ### Classification functions (`index.ts` lines 469–560).
`CONFIG.thresholds` (lines 335–344):
`pedWaiting { great.max 23, good.max 36, redFlag.min 37 }`,
`specificIllnessWaiting { great.max 23, good.exact 24, redFlag.min 25 }`,
`initialWaiting { great.max 0, good.max 30 }`,
`preHospitalization { great.min 60, good.min 30 }`,
`postHospitalization { great.min 180, good.min 60 }`,
`networkHospitals { great.min 10000, good.min 5000 }`,
`ncb { great.min 50, good.min 10 }`. -/

/-- `classifyPedWaiting` (`index.ts` lines 469–475). -/
def classifyPedWaiting (months : Option Int) : Category × Str :=
  match months with
  | none => (.unclear, "PED waiting not specified".toList)
  | some m =>
    if m ≤ 23 then
      (.great, "PED ".toList ++ JS.intStr m ++ " months < 24".toList)
    else if m ≤ 36 then
      (.good, "PED ".toList ++ JS.intStr m ++ " months (24-36 standard)".toList)
    else
      (.redFlag, "PED ".toList ++ JS.intStr m ++ " months > 36".toList)

/-- `classifySpecificIllnessWaiting` (`index.ts` lines 477–483). -/
def classifySpecificIllnessWaiting (months : Option Int) : Category × Str :=
  match months with
  | none => (.unclear, "Specific illness waiting not specified".toList)
  | some m =>
    if m < 24 then
      (.great, "Specific illness ".toList ++ JS.intStr m ++ " months < 24".toList)
    else if m = 24 then
      (.good, "Specific illness 24 months (standard)".toList)
    else
      (.redFlag, "Specific illness ".toList ++ JS.intStr m ++ " months > 24".toList)

/-- `classifyInitialWaiting` (`index.ts` lines 485–491). -/
def classifyInitialWaiting (days : Option Int) : Category × Str :=
  match days with
  | none => (.unclear, "Initial waiting not specified".toList)
  | some d =>
    if d ≤ 0 then (.great, "No initial waiting".toList)
    else if d ≤ 30 then
      (.good, "Initial waiting ".toList ++ JS.intStr d ++ " days (standard)".toList)
    else
      (.redFlag, "Initial waiting ".toList ++ JS.intStr d ++ " days > 30".toList)

/-- First occurrence index of `pat` in `s` (for the regex `test` calls). -/
def findSub (s pat : Str) : Option Nat :=
  (List.range (s.length + 1)).find? (fun i => JS.startsWith (s.drop i) pat)

/-- `/a|b|…/.test(s)` for alternation of literal words. -/
def testAny (pats : List Str) (s : Str) : Bool :=
  pats.any (fun p => JS.includesStr s p)

/-- `/p₁.*p₂.*…/.test(s)` for literal words joined by `.*`: the words occur
in order, disjointly.  (The JS `.` does not match newlines; none of the
theorems exercise this branch, and the difference only widens the GREAT/GOOD
patterns on multi-line values.) -/
def testSeq (pats : List Str) (s : Str) : Bool :=
  match pats with
  | [] => true
  | p :: rest =>
    match findSub s p with
    | some i => testSeq rest (s.drop (i + p.length))
    | none => false

/-- `classifyRoomRent` (`index.ts` lines 493–501).  The GREAT pattern is
`/no limit|no cap|any room|no restriction|no sub-?limit/`, the GOOD pattern
`/single.*private.*ac|single.*ac|single.*room/`. -/
def classifyRoomRent (data : FeatEntry) : Category × Str :=
  if data.hasProportionateDeduction then
    (.redFlag, "Proportionate deduction clause".toList)
  else if data.hasLimit ∧ data.limitAmount.getD 0 ≠ 0 then
    (.redFlag, "Room rent capped ₹".toList ++
      JS.intOptStr data.limitAmount ++ "/day".toList)
  else if data.limitType = "percentage".toList then
    (.redFlag, "Room rent % of SI".toList)
  else
    let raw := JS.toLowerStr data.rawValue
    if testAny (["no limit", "no cap", "any room", "no restriction",
        "no sub-limit", "no sublimit"].map String.toList) raw then
      (.great, "No room rent limit".toList)
    else if testSeq (["single", "private", "ac"].map String.toList) raw ∨
        testSeq (["single", "ac"].map String.toList) raw ∨
        testSeq (["single", "room"].map String.toList) raw then
      (.good, "Single AC room (standard)".toList)
    else (.unclear, "Room rent terms unclear".toList)

/-- `classifyCoPay` (`index.ts` lines 503–510). -/
def classifyCoPay (data : FeatEntry) : Category × Str :=
  if data.isOptional then
    (.good, "Co-pay optional (customer choice)".toList)
  else
    match data.percentage with
    | none => (.great, "No co-pay".toList)
    | some p =>
      if p = 0 then (.great, "No co-pay".toList)
      else if data.isZoneBased then (.redFlag, "Zone-based co-pay".toList)
      else if data.appliesToAllAges ∧ p > 0 then
        (.redFlag, "Mandatory ".toList ++ JS.intStr p ++ "% co-pay all ages".toList)
      else if p > 20 then
        (.redFlag, "Co-pay ".toList ++ JS.intStr p ++ "% > 20%".toList)
      else (.good, "Co-pay ".toList ++ JS.intStr p ++ "% seniors only".toList)

/-- `classifyRestore` (`index.ts` lines 512–516). -/
def classifyRestore (data : FeatEntry) : Category × Str :=
  if !data.available then (.redFlag, "No restore benefit".toList)
  else if data.sameIllnessCovered ∨ data.unlimited then
    (.great, "Restore covers same illness".toList)
  else (.good, "Restore for different illness only".toList)

/-- `classifyPreHospitalization` (`index.ts` lines 518–524). -/
def classifyPreHospitalization (days : Option Int) : Category × Str :=
  match days with
  | none => (.unclear, "Pre-hospitalization not specified".toList)
  | some d =>
    if d ≥ 60 then
      (.great, "Pre-hosp ".toList ++ JS.intStr d ++ " days >= 60".toList)
    else if d ≥ 30 then
      (.good, "Pre-hosp ".toList ++ JS.intStr d ++ " days (standard)".toList)
    else (.redFlag, "Pre-hosp ".toList ++ JS.intStr d ++ " days < 30".toList)

/-- `classifyPostHospitalization` (`index.ts` lines 526–532). -/
def classifyPostHospitalization (days : Option Int) : Category × Str :=
  match days with
  | none => (.unclear, "Post-hospitalization not specified".toList)
  | some d =>
    if d ≥ 180 then
      (.great, "Post-hosp ".toList ++ JS.intStr d ++ " days >= 180".toList)
    else if d ≥ 60 then
      (.good, "Post-hosp ".toList ++ JS.intStr d ++ " days (standard)".toList)
    else (.redFlag, "Post-hosp ".toList ++ JS.intStr d ++ " days < 60".toList)

/-- `classifyConsumables` (`index.ts` lines 534–538). -/
def classifyConsumables (data : FeatEntry) : Category × Str :=
  if !data.covered then (.redFlag, "Consumables not covered".toList)
  else if data.fullyCovered then (.great, "Consumables fully covered".toList)
  else (.good, "Consumables with sub-limit".toList)

/-- `classifyNetworkHospitals` (`index.ts` lines 540–546). -/
def classifyNetworkHospitals (count : Option Int) : Category × Str :=
  match count with
  | none => (.unclear, "Network size not specified".toList)
  | some c =>
    if c ≥ 10000 then (.great, JS.intStr c ++ "+ hospitals".toList)
    else if c ≥ 5000 then (.good, JS.intStr c ++ " hospitals".toList)
    else (.redFlag, "Only ".toList ++ JS.intStr c ++ " hospitals".toList)

/-- `classifyDaycare` (`index.ts` lines 548–552); note the truthiness test
`data.count && data.count > 400` (a `0` count is falsy). -/
def classifyDaycare (data : FeatEntry) : Category × Str :=
  if !data.covered then (.redFlag, "Day care not covered".toList)
  else if data.count.getD 0 ≠ 0 ∧ data.count.getD 0 > 400 then
    (.great, JS.intOptStr data.count ++ "+ day care procedures".toList)
  else (.good, "Day care procedures covered".toList)

/-- `classifyNcb` (`index.ts` lines 554–560); `maxAccumulation` is received
but unused by the source. -/
def classifyNcb (percentage : Option Int) (_maxAccumulation : Option Int) :
    Category × Str :=
  match percentage with
  | none => (.unclear, "NCB not specified".toList)
  | some p =>
    if p ≥ 50 then (.great, "NCB ".toList ++ JS.intStr p ++ "% per year".toList)
    else if p ≥ 10 then
      (.good, "NCB ".toList ++ JS.intStr p ++ "% per year (standard)".toList)
    else (.redFlag, "NCB only ".toList ++ JS.intStr p ++ "%".toList)

/-! ### Explanation generator (`generateExplanation`,
`index.ts` lines 566–671) -/

/-- `Math.round(d.months / 12)` as evaluated by JS for an integer (or
`null`) month count: `Math.round(x)` is `⌊x + 1/2⌋`, so for integral `m`
this is `⌊(m + 6) / 12⌋`; `null / 12` evaluates to `0`. -/
def roundYears : Option Int → Int
  | some m => Int.fdiv (m + 6) 12
  | none => 0

/-- `d.count?.toLocaleString()` rendered in a template literal:
`undefined` prints as `"undefined"`. -/
def localeOptStr : Option Int → Str
  | some n => JS.toLocaleStr n
  | none => "undefined".toList

/-- `generateExplanation` (`index.ts` lines 566–671): per-feature,
per-category explanation text; unknown feature ids (or the impossible
missing-category case) fall back to `` `${featureId}: ${category}` ``. -/
def generateExplanation (featureId : Str) (d : FeatEntry) (category : Category) : Str :=
  if featureId = "pedWaiting".toList then
    match category with
    | .great => "Pre-existing conditions covered in just ".toList ++
        JS.intOptStr d.months ++ " months — faster than most policies".toList
    | .good => JS.intOptStr d.months ++ " months (".toList ++
        JS.intStr (roundYears d.months) ++
        (" years) waiting period for pre-existing diseases is standard " ++
         "industry practice and reasonable").toList
    | .redFlag => JS.intOptStr d.months ++ " months (".toList ++
        JS.intStr (roundYears d.months) ++
        (" years) wait is longer than standard. Your existing conditions " ++
         "remain uncovered for too long").toList
    | .unclear =>
        "PED waiting period not clearly stated. Confirm with insurer before buying".toList
  else if featureId = "specificIllnessWaiting".toList then
    match category with
    | .great => "Common surgeries like cataract, hernia, knee replacement covered after only ".toList ++
        JS.intOptStr d.months ++ " months".toList
    | .good => ("24 months waiting for specific conditions like cataract, " ++
        "hernia, kidney stones is standard industry practice").toList
    | .redFlag => JS.intOptStr d.months ++
        " months wait for common surgeries exceeds the 24-month industry standard".toList
    | .unclear => "Waiting period for specific illnesses/surgeries not specified".toList
  else if featureId = "initialWaiting".toList then
    match category with
    | .great => "No initial waiting period — coverage starts from day one".toList
    | .good => ("30 days initial waiting period is industry standard, " ++
        "with reasonable exception for accidents").toList
    | .redFlag => JS.intOptStr d.days ++
        "-day initial wait is unusually long. Standard is 30 days".toList
    | .unclear => "Initial waiting period not specified".toList
  else if featureId = "roomRent".toList then
    match category with
    | .great => ("No room rent restrictions — you can choose any room " ++
        "category without worrying about limits").toList
    | .good => "Single Private AC room covered, which is industry standard".toList
    | .redFlag =>
      if d.hasProportionateDeduction then
        ("Proportionate deduction of all associated medical expenses when " ++
         "room rent limit is exceeded is a significant cost burden for policyholders").toList
      else if d.limitAmount.getD 0 ≠ 0 then
        "Room rent capped at ₹".toList ++ localeOptStr d.limitAmount ++
        "/day. If actual room costs more, ALL expenses may be reduced proportionally".toList
      else "Room rent restrictions could lead to significant out-of-pocket expenses".toList
    | .unclear => ("Room rent terms not clearly defined. " ++
        "This is a common source of claim disputes").toList
  else if featureId = "coPay".toList then
    match category with
    | .great => "No co-payment — insurer pays 100% of eligible hospital bills".toList
    | .good =>
      if d.isOptional then
        JS.intOptStr d.percentage ++
          "% co-payment is optional — you chose it for lower premium".toList
      else "Co-payment of ".toList ++ JS.intOptStr d.percentage ++
          "% applies only for senior citizens".toList
    | .redFlag =>
      if d.isZoneBased then
        "Zone-based co-payment penalizes you for seeking treatment at metro city hospitals".toList
      else "Mandatory ".toList ++ JS.intOptStr d.percentage ++
        "% co-payment on all claims reduces effective coverage significantly".toList
    | .unclear => "Co-payment terms not clear".toList
  else if featureId = "restore".toList then
    match category with
    | .great =>
      if d.sameIllnessCovered then
        ("Automatic restoration of full sum insured once per year after " ++
         "exhaustion - excellent protection for multiple claims").toList
      else "Unlimited restore — sum insured refills every time you exhaust it".toList
    | .good => ("Restore benefit available for unrelated illnesses. " ++
        "Won't refill for same condition in same year").toList
    | .redFlag =>
        "No restore/recharge benefit — once sum insured exhausted, no coverage until renewal".toList
    | .unclear => "Restore benefit details not clear".toList
  else if featureId = "preHospitalization".toList then
    match category with
    | .great => JS.intOptStr d.days ++
        " days pre-hospitalization coverage is excellent for tests and consultations before admission".toList
    | .good => JS.intOptStr d.days ++
        " days pre-hospitalization coverage meets industry standard".toList
    | .redFlag => "Only ".toList ++ JS.intOptStr d.days ++
        " days pre-hospitalization may not cover all diagnostic expenses".toList
    | .unclear => "Pre-hospitalization coverage period not specified".toList
  else if featureId = "postHospitalization".toList then
    match category with
    | .great => JS.intOptStr d.days ++
        " days post-discharge coverage is excellent for follow-ups and recovery expenses".toList
    | .good => JS.intOptStr d.days ++
        " days post-hospitalization is standard for follow-up care".toList
    | .redFlag => "Only ".toList ++ JS.intOptStr d.days ++
        " days post-discharge may not cover extended recovery needs".toList
    | .unclear => "Post-hospitalization coverage period not specified".toList
  else if featureId = "consumables".toList then
    match category with
    | .great => ("All consumables and non-medical items covered — gloves, " ++
        "PPE, syringes won't come from your pocket").toList
    | .good => "Consumables covered with sub-limits".toList
    | .redFlag =>
        "Consumables not covered — expect ₹10,000-50,000 extra on any hospital bill".toList
    | .unclear => "Consumables coverage not specified".toList
  else if featureId = "networkHospitals".toList then
    match category with
    | .great => "Extensive network of ".toList ++ localeOptStr d.count ++
        "+ hospitals ensures cashless access almost anywhere".toList
    | .good => localeOptStr d.count ++ " hospitals provides good coverage".toList
    | .redFlag => "Only ".toList ++ localeOptStr d.count ++
        " hospitals — limited options for cashless treatment".toList
    | .unclear => "Network size not specified".toList
  else if featureId = "daycare".toList then
    match category with
    | .great => "Extensive list of ".toList ++ JS.intOptStr d.count ++
        "+ day care procedures covered, providing comprehensive outpatient surgical coverage".toList
    | .good => "Day care procedures covered as per standard list".toList
    | .redFlag => "Limited day care coverage".toList
    | .unclear => "Day care coverage details not specified".toList
  else if featureId = "modernTreatments".toList then
    match category with
    | .great => ("Comprehensive coverage of modern treatments including robotic " ++
        "surgeries, immunotherapy, and stem cell therapy without sub-limits").toList
    | .good => "Modern treatments covered with some limits".toList
    | .redFlag => "Modern treatments like robotic surgery may not be covered".toList
    | .unclear => "Coverage for advanced treatments not specified".toList
  else if featureId = "ayush".toList then
    match category with
    | .great => ("Coverage for alternative medicine systems (Ayurveda, Yoga, " ++
        "Unani, Siddha, Homeopathy) which is valuable in Indian context").toList
    | .good => "AYUSH treatments covered with sub-limits".toList
    | .redFlag => "AYUSH treatments not covered".toList
    | .unclear => "AYUSH coverage not specified".toList
  else if featureId = "ncb".toList then
    match category with
    | .great => JS.intOptStr d.percentagePerYear ++
        "% cumulative bonus per claim-free year is excellent".toList
    | .good => JS.intOptStr d.percentagePerYear ++
        "% cumulative bonus per claim-free year up to ".toList ++
        JS.intStr (if d.maxAccumulation.getD 0 ≠ 0 then d.maxAccumulation.getD 0 else 50) ++
        "% maximum is good and standard in industry".toList
    | .redFlag => "Low NCB of ".toList ++ JS.intOptStr d.percentagePerYear ++
        "% barely increases coverage".toList
    | .unclear => "NCB details not specified".toList
  else if featureId = "globalCoverage".toList then
    match category with
    | .great => "Worldwide coverage including planned treatments abroad".toList
    | .good => "Global coverage with ".toList ++
        JS.intStr (if d.daysPerTrip.getD 0 ≠ 0 then d.daysPerTrip.getD 0 else 45) ++
        " continuous days per trip provides good international protection".toList
    | .redFlag => "International coverage very limited".toList
    | .unclear => "International coverage terms not clear".toList
  else featureId ++ ": ".toList ++ category.str

/-! ### Merging per-chunk extractions (`mergeExtractions`,
`index.ts` lines 835–862) -/

/-- `merged.features[k]?.found` (false when the key is absent). -/
def foundOf : Option FeatEntry → Bool
  | some m => m.found
  | none => false

/-- `merged.features[k].quote?.length || 0` (the guarding `||` makes the
absent-key case unreachable in the source; `0` is its value here). -/
def qlenOf : Option FeatEntry → Nat
  | some m => m.quoteLen
  | none => 0

/-- The per-key replacement rule of the feature merge (`index.ts`
lines 845–850): a chunk's entry wins iff it is `found` and either the
accumulated entry is not `found` or the chunk's quote is strictly longer. -/
def mergeFeatStep (acc : Option FeatEntry) (new : Option FeatEntry) :
    Option FeatEntry :=
  match new with
  | some f =>
    if f.found ∧ (foundOf acc = false ∨ f.quoteLen > qlenOf acc) then some f
    else acc
  | none => acc

/-- Name-deduplicating append used for `uniqueFeatures`
(`index.ts` lines 852–855). -/
def addUniques (acc : List UF) : List UF → List UF
  | [] => acc
  | uf :: rest =>
    if (acc.map (fun f => f.name)).contains uf.name then addUniques acc rest
    else addUniques (acc ++ [uf]) rest

/-- Name-deduplicating append used for `unclearClauses`
(`index.ts` lines 856–859). -/
def addUnclear (acc : List UC) : List UC → List UC
  | [] => acc
  | uc :: rest =>
    if (acc.map (fun c => c.name)).contains uc.name then addUnclear acc rest
    else addUnclear (acc ++ [uc]) rest

/-- One iteration of the `for (const ext of extractions.slice(1))` loop of
`mergeExtractions`: overwrite `policyInfo` entries with non-placeholder
values, merge features per key by `mergeFeatStep`, and append new unique
features / unclear clauses by name. -/
def mergeStep (merged ext : Extraction) : Extraction :=
  { policyInfo := fun k =>
      match ext.policyInfo k with
      | some v =>
        if v ≠ [] ∧ v ≠ "Not specified".toList ∧ v ≠ "Unknown".toList then some v
        else merged.policyInfo k
      | none => merged.policyInfo k,
    features := fun k => mergeFeatStep (merged.features k) (ext.features k),
    uniqueFeatures := addUniques merged.uniqueFeatures ext.uniqueFeatures,
    unclearClauses := addUnclear merged.unclearClauses ext.unclearClauses }

/-- `mergeExtractions` (`index.ts` lines 835–862): the first extraction is
the base, every later one is folded in by `mergeStep`.  A single-element
list is returned unchanged, and the empty list (on which the source would
throw) is `none`. -/
def mergeExtractions : List Extraction → Option Extraction
  | [] => none
  | e :: rest => some (rest.foldl mergeStep e)

/-! ### The classification section of `serve` (`index.ts` lines 913–986) -/

/-- `data.quote || ''`. -/
def quoteD (d : FeatEntry) : Str := d.quote.getD []

/-- `data.reference || ''`. -/
def refD (d : FeatEntry) : Str := d.reference.getD []

/-- `x?.quote || …` style fallback chaining on possibly-absent entries. -/
def quoteOf : Option FeatEntry → Str
  | some d => d.quote.getD []
  | none => []

/-- `x?.reference || …`. -/
def refOf : Option FeatEntry → Str
  | some d => d.reference.getD []
  | none => []

/-- JS `a || b` on strings (empty string is falsy). -/
def jsOrStr (a b : Str) : Str := if a = [] then b else a

/-- The `add` helper of `serve` (`index.ts` lines 918–922): skip
not-`found` (or absent) entries, otherwise classify and build the
`AnalyzedFeature`. -/
def addKnown (id nm : Str) (data : Option FeatEntry)
    (classify : FeatEntry → Category × Str) : List AnalyzedFeature :=
  match data with
  | some d =>
    if d.found then
      let r := classify d
      [{ name := nm, category := r.1, policyStates := quoteD d,
         reference := refD d,
         explanation := generateExplanation id d r.1,
         classifiedBy := "code".toList, ruleApplied := some r.2 }]
    else []
  | none => []

/-- `f.pedWaiting?.months` etc. through a possibly-absent entry. -/
def monthsOf : Option FeatEntry → Option Int
  | some d => d.months
  | none => none

/-- `f.…?.days`. -/
def daysOf : Option FeatEntry → Option Int
  | some d => d.days
  | none => none

/-- The code-classified feature list of `serve` (`index.ts` lines 924–972),
in source order. -/
def codeClassified (f : Str → Option FeatEntry) : List AnalyzedFeature :=
  addKnown "pedWaiting".toList "PED Waiting Period".toList (f "pedWaiting".toList)
    (fun d => classifyPedWaiting (sanitizeNumber d.months "months".toList)) ++
  addKnown "specificIllnessWaiting".toList "Specific Illness Waiting Period".toList
    (f "specificIllnessWaiting".toList)
    (fun d => classifySpecificIllnessWaiting (sanitizeNumber d.months "months".toList)) ++
  addKnown "initialWaiting".toList "Initial Waiting Period".toList (f "initialWaiting".toList)
    (fun d => classifyInitialWaiting (sanitizeNumber d.days "days".toList)) ++
  addKnown "roomRent".toList "Room Rent".toList (f "roomRent".toList) classifyRoomRent ++
  (match f "coPay".toList with
   | some d =>
     if d.found then
       let r := classifyCoPay d
       [{ name := (match d.optionalCoverName with
            | some n => if n ≠ [] then n ++ " Co-payment".toList else "Co-payment".toList
            | none => "Co-payment".toList),
          category := r.1, policyStates := quoteD d, reference := refD d,
          explanation := generateExplanation "coPay".toList d r.1,
          classifiedBy := "code".toList, ruleApplied := some r.2 }]
     else []
   | none => []) ++
  addKnown "restore".toList "Automatic Recharge Benefit".toList (f "restore".toList)
    classifyRestore ++
  (if foundOf (f "preHospitalization".toList) ∨ foundOf (f "postHospitalization".toList) then
    let preDays := sanitizeNumber (daysOf (f "preHospitalization".toList)) "days".toList
    let postDays := sanitizeNumber (daysOf (f "postHospitalization".toList)) "days".toList
    let preR := classifyPreHospitalization preDays
    let postR := classifyPostHospitalization postDays
    let cat : Category :=
      if preR.1 = .redFlag ∨ postR.1 = .redFlag then .redFlag
      else if preR.1 = .good ∨ postR.1 = .good then .good
      else .great
    [{ name := "Pre and Post Hospitalization Coverage".toList, category := cat,
       policyStates := jsOrStr (quoteOf (f "preHospitalization".toList))
         (quoteOf (f "postHospitalization".toList)),
       reference := jsOrStr (refOf (f "preHospitalization".toList))
         (refOf (f "postHospitalization".toList)),
       explanation := JS.intOptStr preDays ++ " days pre and ".toList ++
         JS.intOptStr postDays ++ " days post hospitalization coverage ".toList ++
         (if cat = .good then "meets industry standard".toList
          else if cat = .great then "is excellent".toList
          else "is below standard".toList),
       classifiedBy := "code".toList,
       ruleApplied := some ("Pre ".toList ++ JS.intOptStr preDays ++
         ", Post ".toList ++ JS.intOptStr postDays) }]
  else []) ++
  addKnown "consumables".toList "Consumables Coverage".toList (f "consumables".toList)
    classifyConsumables ++
  addKnown "networkHospitals".toList "Cashless Hospital Network".toList
    (f "networkHospitals".toList)
    (fun d => classifyNetworkHospitals (sanitizeNumber d.count "count".toList)) ++
  addKnown "daycare".toList "Day Care Procedures".toList (f "daycare".toList)
    classifyDaycare ++
  (match f "modernTreatments".toList with
   | some d =>
     if d.found ∧ d.covered then
       let cat : Category := if d.fullyCovered then .great else .good
       [{ name := "Advanced Technology Methods Coverage".toList, category := cat,
          policyStates := quoteD d, reference := refD d,
          explanation := generateExplanation "modernTreatments".toList d cat,
          classifiedBy := "code".toList }]
     else []
   | none => []) ++
  (match f "ayush".toList with
   | some d =>
     if d.found ∧ d.covered then
       let cat : Category := if d.fullyCovered then .great else .good
       [{ name := "AYUSH Treatments Coverage".toList, category := cat,
          policyStates := quoteD d, reference := refD d,
          explanation := generateExplanation "ayush".toList d cat,
          classifiedBy := "code".toList }]
     else []
   | none => []) ++
  addKnown "ncb".toList "No Claims Bonus Structure".toList (f "ncb".toList)
    (fun d => classifyNcb d.percentagePerYear d.maxAccumulation) ++
  (match f "globalCoverage".toList with
   | some d =>
     if d.found ∧ d.covered then
       [{ name := "Global Coverage Option".toList, category := .good,
          policyStates := quoteD d, reference := refD d,
          explanation := generateExplanation "globalCoverage".toList d .good,
          classifiedBy := "code".toList }] ++
       (if d.hasCoPay ∧ d.coPayPercentage.getD 0 ≠ 0 then
         [{ name := "Co-payment for Global Coverage".toList, category := .redFlag,
            policyStates := quoteD d, reference := refD d,
            explanation := "Mandatory ".toList ++ JS.intOptStr d.coPayPercentage ++
              ("% co-payment on all international claims reduces effective " ++
               "coverage significantly").toList,
            classifiedBy := "code".toList }]
       else [])
     else []
   | none => []) ++
  (match f "diseaseSubLimits".toList with
   | some d =>
     if d.found ∧ d.hasSubLimits then
       [{ name := "Disease-wise Sub-Limits".toList, category := .redFlag,
          policyStates := quoteD d, reference := refD d,
          explanation := "Disease sub-limits: ".toList ++ d.details ++
            ". Actual costs often exceed these caps".toList,
          classifiedBy := "code".toList }]
     else []
   | none => []) ++
  (match f "roomRent".toList with
   | some d =>
     if d.hasProportionateDeduction then
       [{ name := "Room Rent Proportionate Deduction".toList, category := .redFlag,
          policyStates := quoteD d, reference := refD d,
          explanation := ("Proportionate deduction of all associated medical expenses " ++
            "when room rent limit is exceeded is a significant cost burden " ++
            "for policyholders").toList,
          classifiedBy := "code".toList }]
     else []
   | none => [])

/-- The unique-features loop of `serve` (`index.ts` lines 975–981): features
whose quote fails `validateQuote` are skipped without an LLM call; for the
rest one judgment call is made (a failing call is caught and logged, the
feature is dropped).  Also returns the number of judgment calls. -/
def judgeUniques (judge : UF → Except Str JudgeOut) (policyText : Str) :
    List UF → List AnalyzedFeature × Nat
  | [] => ([], 0)
  | uf :: rest =>
    if validateQuote (some uf.quote) policyText then
      let r := judgeUniques judge policyText rest
      match judge uf with
      | .ok j =>
        ({ name := uf.name, category := j.category, policyStates := uf.quote,
           reference := uf.reference, explanation := j.explanation,
           classifiedBy := "llm".toList } :: r.1, r.2 + 1)
      | .error _ => (r.1, r.2 + 1)
    else judgeUniques judge policyText rest

/-- The unclear-clauses loop of `serve` (`index.ts` lines 984–986). -/
def unclearFeatures (ucs : List UC) : List AnalyzedFeature :=
  ucs.map (fun uc =>
    { name := uc.name, category := .unclear, policyStates := uc.quote,
      reference := uc.reference, explanation := uc.issue,
      classifiedBy := "llm".toList })

/-! ### Response assembly and main handler (`index.ts` lines 868–1019) -/

/-- The `summary` object of the response (`index.ts` line 1001). -/
structure Summary where
  great : Nat
  good : Nat
  redFlags : Nat
  unclear : Nat
  deriving DecidableEq, Repr

/-- The success-response shape of revision 3.0.0 (`index.ts`
lines 996–1008). -/
structure Result where
  policyName : Str
  insurer : Str
  sumInsured : Str
  policyType : Str
  summary : Summary
  greatFeatures : List FmtFeature
  goodFeatures : List FmtFeature
  redFlags : List FmtFeature
  needsClarification : List FmtFeature
  disclaimer : Str
  metaProcessingTimeMs : Nat
  metaDocumentHash : Str
  metaVersion : Str
  metaModel : Str

/-- `a || b` on an optional string field followed by a default. -/
def jsOrOpt (a : Option Str) (b : Str) : Str :=
  match a with
  | some s => if s = [] then b else s
  | none => b

/-- The `fmt` projection (`index.ts` line 994). -/
def fmt (f : AnalyzedFeature) : FmtFeature :=
  { name := f.name, policyStates := f.policyStates,
    reference := f.reference, explanation := f.explanation }

/-- Response assembly (`index.ts` lines 988–1008): bucket the feature list
by category, count the buckets, fill in policy info with fallbacks. -/
def buildResult (extraction : Extraction) (validation : ValidationOut)
    (features : List AnalyzedFeature) (docHash : Str) (procMs : Nat) : Result :=
  let great := features.filter (fun f => f.category = .great)
  let good := features.filter (fun f => f.category = .good)
  let redFlags := features.filter (fun f => f.category = .redFlag)
  let unclear := features.filter (fun f => f.category = .unclear)
  { policyName := jsOrOpt (extraction.policyInfo "name".toList) "Unknown Policy".toList,
    insurer := jsOrOpt (extraction.policyInfo "insurer".toList)
      (jsOrStr validation.insurerName "Unknown".toList),
    sumInsured := jsOrOpt (extraction.policyInfo "sumInsured".toList)
      "Not specified".toList,
    policyType := jsOrOpt (extraction.policyInfo "policyType".toList)
      "Not specified".toList,
    summary := { great := great.length, good := good.length,
                 redFlags := redFlags.length, unclear := unclear.length },
    greatFeatures := great.map fmt,
    goodFeatures := good.map fmt,
    redFlags := redFlags.map fmt,
    needsClarification := unclear.map fmt,
    disclaimer := ("This analysis is for informational purposes. Standard IRDAI " ++
      "exclusions apply. Verify with insurer before purchase.").toList,
    metaProcessingTimeMs := procMs,
    metaDocumentHash := JS.substringTo docHash 16,
    metaVersion := version,
    metaModel := "gemini-2.5-flash".toList }

/-- Error-response body: `error` plus the optional `message` (validation
rejections) and `_debug` fields. -/
structure ErrBody where
  error : Str
  message : Option Str := none
  debug : Option Str := none
  deriving DecidableEq, Repr

/-- Outcome of one request: a success result (with the `_cached` flag of
`index.ts` line 885 — `false` means the field is absent), or an error
response. -/
inductive ServeOut where
  | ok (result : Result) (cached : Bool)
  | err (status : Nat) (body : ErrBody)

/-- The catch-all handler of revision 3.0.0 (`index.ts` lines 1015–1018):
`500` with `getUserFriendlyError` and — unlike the other revisions — no
`_debug` field. -/
def catchResponse (msg : Str) : ServeOut :=
  .err 500 { error := getUserFriendlyError msg }

/-- The external calls of revision 3.0.0, by prompt: document validation,
per-chunk extraction (the `Nat` is the `Part i of n` prompt variant, `0`
for the single-chunk prompt) and unique-feature judgment.  Each call
summarises one `callGemini` invocation (its internal retries included):
either a parsed value or the error that `callGemini` finally threw. -/
structure Oracle where
  validate : Str → Except Str ValidationOut
  extract : Nat → Str → Except Str Extraction
  judge : UF → Except Str JudgeOut

/-- The multi-chunk extraction loop (`index.ts` lines 905–909): sequential
calls, a failure propagates to the catch handler.  Also counts the calls
made. -/
def extractLoop (o : Oracle) : Nat → List Str → Except Str (List Extraction) × Nat
  | _, [] => (.ok [], 0)
  | i, c :: rest =>
    match o.extract i c with
    | .error e => (.error e, 1)
    | .ok ext =>
      match extractLoop o (i + 1) rest with
      | (.ok exts, n) => (.ok (ext :: exts), n + 1)
      | (.error e, n) => (.error e, n + 1)

/-- The `serve` handler of revision 3.0.0 (`index.ts` lines 868–1019),
parametrised by the environment (`GEMINI_API_KEY`), the SHA-256 digest, the
warm-instance cache, the current time, the measured processing time and the
LLM oracle.  Returns the response, the number of LLM calls made, and the
cache afterwards.  Control flow in source order: short-document guard →
cache lookup → missing-key throw → validation call → chunked extraction →
code classification → unique-feature judgments → unclear clauses → response
assembly and caching.  Failures of `callGemini` (and the missing-key throw)
reach the catch handler. -/
def serve (apiKey : Option Str) (sha : Str → Str) (cache : Cache Result)
    (now procMs : Nat) (o : Oracle) (policyText : Str) :
    ServeOut × Nat × Cache Result :=
  if (JS.trimStr policyText).length < minLength then
    (.err 400 { error := "Document too short. Upload a complete policy.".toList },
     0, cache)
  else
    let docHash := hashDocument sha policyText
    match getCached cache docHash now with
    | (some cachedR, c1) => (.ok cachedR true, 0, c1)
    | (none, c1) =>
      match apiKey with
      | none => (catchResponse "API not configured".toList, 0, c1)
      | some _ =>
        match o.validate (JS.substringTo policyText validationSample) with
        | .error e => (catchResponse e, 1, c1)
        | .ok validation =>
          if !validation.isHealthInsurance then
            (.err 400 { error := "invalid_document".toList,
                        message := some ("Not a health insurance document. Detected: ".toList ++
                          validation.documentType) }, 1, c1)
          else
            let chunks := chunkDocument policyText
            let step : Except Str Extraction × Nat :=
              if chunks.length = 1 then
                match o.extract 0 (chunks.headD []) with
                | .error e => (.error e, 1)
                | .ok ext => (.ok ext, 1)
              else
                match extractLoop o 1 chunks with
                | (.ok exts, n) =>
                  match mergeExtractions exts with
                  | some m => (.ok m, n)
                  | none => (.error "merge failed".toList, n)
                | (.error e, n) => (.error e, n)
            match step with
            | (.error e, n) => (catchResponse e, 1 + n, c1)
            | (.ok extraction, n) =>
              let code := codeClassified extraction.features
              let uniq := judgeUniques o.judge policyText extraction.uniqueFeatures
              let features := code ++ uniq.1 ++ unclearFeatures extraction.unclearClauses
              let result := buildResult extraction validation features docHash procMs
              let c2 := setCache c1 docHash result now
              (.ok result false, 1 + n + uniq.2, c2)

end V3

/-! ## Namespace `P3` — revision 9.0.0 (`src/unnamed/part_003`,
Claude tool-use) -/

namespace P3

/-- `validateDocument` result shape. -/
structure Verdict where
  valid : Bool
  error : Option Str := none
  deriving DecidableEq, Repr

/-- Health keyword list of `part_003` (line 31). -/
def healthKeywords : List Str :=
  ["health insurance", "hospitalization", "sum insured", "cashless",
   "waiting period", "room rent", "co-pay", "irdai", "claim"].map String.toList

/-- `validateDocument` (`part_003` lines 25–39).  The JS guard
`!text || text.length < 500` collapses to the length test, since the empty
string has length `0`. -/
def validateDocument (text : Str) : Verdict :=
  if text.length < 500 then
    { valid := false,
      error := some "Document too short. Please upload complete policy.".toList }
  else
    let lower := JS.toLowerStr (JS.substringTo text 10000)
    let nMatches := (healthKeywords.filter (fun k => JS.includesStr lower k)).length
    if nMatches < 3 then
      { valid := false,
        error := some ("This doesn".toList ++ ['\''] ++
          "t appear to be a health insurance policy.".toList) }
    else { valid := true }

/-- The parsed `submit_policy_analysis` tool input (`ANALYSIS_TOOL` schema,
`part_003` lines 45–122). -/
structure ClaudeAnalysis where
  policyName : Str
  insurer : Str
  sumInsured : Str
  greatFeatures : List FmtFeature
  goodFeatures : List FmtFeature
  redFlags : List FmtFeature
  needsClarification : List FmtFeature

/-- `summary` counts added by `serve` (`part_003` lines 330–335). -/
structure Summary where
  great : Nat
  good : Nat
  redFlags : Nat
  unclear : Nat
  deriving DecidableEq, Repr

/-- The final success payload of revision 9.0.0 (`part_003` lines 330–347):
the tool result plus `summary`, `disclaimer` (the tool schema carries no
disclaimer, so the fallback always applies) and `_meta`. -/
structure Result where
  analysis : ClaudeAnalysis
  summary : Summary
  disclaimer : Str
  metaVersion : Str
  metaModel : Str
  metaProcessingTimeMs : Nat

/-- Response of one request: success payload, or an error body with the
optional `_debug` field. -/
inductive Out where
  | ok (r : Result)
  | err (status : Nat) (error : Str) (debug : Option Str)

/-- The catch handler of `serve` (`part_003` lines 356–372): a message-
dependent user string, `500`, and `_debug: error.message`. -/
def catchResponse (msg : Str) : Out :=
  let userMessage :=
    if JS.includesStr msg "API key".toList then
      "API key error. Please check configuration.".toList
    else if JS.includesStr msg "timeout".toList ∨ JS.includesStr msg "abort".toList then
      "Analysis timed out. Please try again.".toList
    else if JS.includesStr msg "tool".toList then
      "Analysis parsing error. Please try again.".toList
    else "Analysis failed. Please try again.".toList
  .err 500 userMessage (some msg)

/-- `serve` of revision 9.0.0 (`part_003` lines 281–373), with the Claude
call (`analyzeWithClaude`) as an oracle; the second component counts the
Claude calls made.  Source order: empty-body guard → API-key guard (a plain
`500` return, not the catch path) → `validateDocument` → truncation to
`maxDocChars = 150000` → one Claude call → summary/disclaimer/meta. -/
def serve (apiKey : Option Str) (procMs : Nat)
    (oracle : Str → Except Str ClaudeAnalysis) (policyText : Str) : Out × Nat :=
  if policyText = [] then
    (.err 400 "No policy text provided".toList none, 0)
  else
    match apiKey with
    | none => (.err 500 "Claude API key not configured".toList none, 0)
    | some _ =>
      let validation := validateDocument policyText
      if !validation.valid then
        (.err 400 (validation.error.getD []) none, 0)
      else
        let docText :=
          if policyText.length > 150000 then
            JS.substringTo policyText 150000 ++ "\n\n[Document truncated]".toList
          else policyText
        match oracle docText with
        | .error e => (catchResponse e, 1)
        | .ok result =>
          (.ok { analysis := result,
                 summary := { great := result.greatFeatures.length,
                              good := result.goodFeatures.length,
                              redFlags := result.redFlags.length,
                              unclear := result.needsClarification.length },
                 disclaimer := ("This analysis is for informational purposes only. " ++
                   "Please verify details with your insurer before making decisions.").toList,
                 metaVersion := "9.0.0".toList,
                 metaModel := "claude-3-5-haiku-20241022".toList,
                 metaProcessingTimeMs := procMs }, 1)

end P3

/-! ## Namespace `P4` — revision 4.0.0 (`src/unnamed/part_004`) -/

namespace P4

/-- `CONFIG.validation.healthKeywords` (`part_004` lines 31–36). -/
def healthKeywords : List Str :=
  ["hospitalization", "sum insured", "cashless", "pre-existing",
   "waiting period", "room rent", "irdai", "tpa", "network hospital",
   "inpatient", "day care", "co-pay", "copay", "claim", "mediclaim",
   "health insurance", "policy wording", "insured person"].map String.toList

/-- `CONFIG.validation.wrongDocKeywords` (`part_004` lines 37–42). -/
def wrongDocKeywords : List Str :=
  ["life insurance", "term plan", "death benefit", "maturity benefit",
   "motor insurance", "vehicle insurance", "car insurance", "bike insurance",
   "bank statement", "transaction history", "account summary",
   "resume", "curriculum vitae", "invoice", "purchase order"].map String.toList

/-- `CONFIG.validation.minHealthKeywords`. -/
def minHealthKeywords : Nat := 5

/-- `validateDocument` result shape. -/
structure Verdict where
  valid : Bool
  error : Option Str := none
  deriving DecidableEq, Repr

/-- `validateDocument` (`part_004` lines 276–302): length guard, then a
wrong-document check (two or more wrong-document keywords in the lowercased
first 10 000 characters reject with the detected keywords), then the
health-keyword density check (< 5 hits reject). -/
def validateDocument (text : Str) : Verdict :=
  if text.length < 500 then
    { valid := false,
      error := some "Document too short. Please upload the complete policy document.".toList }
  else
    let lowerText := JS.toLowerStr (JS.substringTo text 10000)
    let wrongHits := wrongDocKeywords.filter (fun kw => JS.includesStr lowerText kw)
    if wrongHits.length ≥ 2 then
      { valid := false,
        error := some ("This doesn".toList ++ ['\''] ++
          "t appear to be a health insurance policy. Detected: ".toList ++
          List.intercalate ", ".toList (wrongHits.take 2) ++ ".".toList) }
    else
      let healthHits := healthKeywords.filter (fun kw => JS.includesStr lowerText kw)
      if healthHits.length < minHealthKeywords then
        { valid := false,
          error := some ("This doesn".toList ++ ['\''] ++
            ("t appear to be a health insurance policy document. " ++
             "Please upload a policy wording or schedule.").toList) }
      else { valid := true }

/-- The validation-failure branch of `serve` (`part_004` lines 591–599):
for an invalid document the endpoint answers `400` with
`{ error: validation.error }`. -/
def serveValidation (text : Str) : Option (Nat × Str) :=
  let validation := validateDocument text
  if !validation.valid then some (400, validation.error.getD []) else none

/-- `interface ClassifiedFeature` (`part_004` lines 167–176); the
`string | number | null` value is carried as rendered text. -/
structure ClassifiedFeature where
  id : Str
  name : Str
  value : Str
  quote : Str
  reference : Str
  category : Category
  explanation : Str
  classifiedBy : Str

/-- `summary` counts. -/
structure Summary where
  great : Nat
  good : Nat
  redFlags : Nat
  unclear : Nat
  deriving DecidableEq, Repr

/-- The success-response shape of revision 4.0.0 (`part_004`
lines 703–727). -/
structure Result where
  policyName : Str
  insurer : Str
  sumInsured : Str
  policyType : Str
  summary : Summary
  greatFeatures : List FmtFeature
  goodFeatures : List FmtFeature
  redFlags : List FmtFeature
  needsClarification : List FmtFeature
  disclaimer : Str
  metaVersion : Str
  metaModel : Str
  metaProcessingTimeMs : Nat
  metaFeaturesExtracted : Nat
  metaClassifiedByCode : Nat
  metaClassifiedByAi : Nat

/-- `formatFeature` (`part_004` lines 696–701). -/
def formatFeature (f : ClassifiedFeature) : FmtFeature :=
  { name := f.name, policyStates := f.quote, reference := f.reference,
    explanation := f.explanation }

/-- JS `a || b` where `a` is an optional string field. -/
def jsOrOpt (a : Option Str) (b : Str) : Str :=
  match a with
  | some s => if s = [] then b else s
  | none => b

/-- Response assembly of `serve` (`part_004` lines 689–727): bucket the
final feature list by category and count the buckets. -/
def buildResult (pInfo : Str → Option Str) (finalFeatures : List ClassifiedFeature)
    (procMs featuresExtracted codeCnt aiCnt : Nat) : Result :=
  let great := finalFeatures.filter (fun f => f.category = .great)
  let good := finalFeatures.filter (fun f => f.category = .good)
  let redFlags := finalFeatures.filter (fun f => f.category = .redFlag)
  let unclear := finalFeatures.filter (fun f => f.category = .unclear)
  { policyName := jsOrOpt (pInfo "name".toList) "Health Insurance Policy".toList,
    insurer := jsOrOpt (pInfo "insurer".toList) "Unknown Insurer".toList,
    sumInsured := jsOrOpt (pInfo "sumInsured".toList) "See policy schedule".toList,
    policyType := jsOrOpt (pInfo "policyType".toList) "Individual/Family Floater".toList,
    summary := { great := great.length, good := good.length,
                 redFlags := redFlags.length, unclear := unclear.length },
    greatFeatures := great.map formatFeature,
    goodFeatures := good.map formatFeature,
    redFlags := redFlags.map formatFeature,
    needsClarification := unclear.map formatFeature,
    disclaimer := ("This analysis is for informational purposes only. Standard IRDAI " ++
      "exclusions apply. Please verify all details with your insurer before " ++
      "making decisions.").toList,
    metaVersion := "4.0.0".toList,
    metaModel := "gemini-2.5-flash".toList,
    metaProcessingTimeMs := procMs,
    metaFeaturesExtracted := featuresExtracted,
    metaClassifiedByCode := codeCnt,
    metaClassifiedByAi := aiCnt }

/-- Catch-all error response shape. -/
structure CatchResp where
  status : Nat
  error : Str
  debug : Option Str
  deriving DecidableEq, Repr

/-- The catch handler of revision 4.0.0 (`part_004` lines 736–751): `500`,
a message-dependent user string, and `_debug: error.message`. -/
def catchResponse (msg : Str) : CatchResp :=
  let userMessage :=
    if JS.includesStr msg "429".toList then
      "Service is busy. Please try again in a moment.".toList
    else if JS.includesStr msg "timeout".toList ∨ JS.includesStr msg "abort".toList then
      "Analysis took too long. Please try again.".toList
    else "Analysis failed. Please try again.".toList
  { status := 500, error := userMessage, debug := some msg }

end P4

/-! ## Namespace `P5` — revision 3.1.0 (`src/unnamed/part_005`,
hybrid code/Gemini validation) -/

namespace P5

/-- `CONFIG.validation.healthKeywords` (`part_005` lines 63–88). -/
def healthKeywords : List Str :=
  ["health insurance", "hospitalization", "hospitalisation", "sum insured", "cashless",
   "waiting period", "pre-existing", "preexisting", "pre existing",
   "room rent", "network hospital", "empanelled hospital", "panel hospital",
   "irdai", "irda", "tpa", "third party administrator",
   "in-patient", "inpatient", "in patient", "out-patient", "outpatient",
   "day care", "daycare", "day-care",
   "co-pay", "copay", "co-payment", "copayment", "co payment",
   "claim settlement", "cashless claim", "reimbursement claim",
   "mediclaim", "medical expenses", "hospital cash", "critical illness",
   "pre-hospitalization", "post-hospitalization", "prehospitalization",
   "posthospitalization", "pre hospitalization", "post hospitalization",
   "policy holder", "policyholder", "insured person", "coverage", "exclusion",
   "deductible", "sub-limit", "sublimit", "no claim bonus",
   "cumulative bonus"].map String.toList

/-- `CONFIG.validation.wrongDocKeywords` (`part_005` lines 89–97). -/
def wrongDocKeywords : List Str :=
  ["life insurance", "term plan", "death benefit", "maturity benefit", "endowment",
   "motor insurance", "vehicle insurance", "car insurance", "two wheeler",
   "travel insurance", "trip cancellation", "baggage loss",
   "home insurance", "fire insurance", "property insurance",
   "bank statement", "account summary", "transaction history", "ifsc code",
   "resume", "curriculum vitae", "work experience", "education qualification",
   "invoice", "bill of supply", "gst number"].map String.toList

/-- `CONFIG.validation.minHealthKeywords` (lowered to 4 in this revision). -/
def minHealthKeywords : Nat := 4

/-- `CONFIG.validation.minWrongKeywords`. -/
def minWrongKeywords : Nat := 2

/-- The dash characters normalised by `validateWithCode`
(`/[‐-―−﹘﹣－]/g`). -/
def isUnicodeDash (c : Char) : Bool :=
  (0x2010 ≤ c.toNat ∧ c.toNat ≤ 0x2015) || c.toNat = 0x2212 ||
  c.toNat = 0xFE58 || c.toNat = 0xFE63 || c.toNat = 0xFF0D

/-- The text normalisation of `validateWithCode` (`part_005` lines 241–244):
lowercase, unify dash characters, collapse whitespace. -/
def normalizeText (text : Str) : Str :=
  JS.collapseWs ((JS.toLowerStr text).map (fun c => if isUnicodeDash c then '-' else c))

/-- Result of the code-only validation step. -/
structure CodeCheck where
  definitelyValid : Bool
  definitelyInvalid : Bool
  reason : Str
  documentType : Str
  deriving DecidableEq, Repr

/-- Wrong-document type detection chain (`part_005` lines 255–268). -/
def detectDocType (wrongMatches : List Str) : Str :=
  if wrongMatches.any (fun w => JS.includesStr w "life".toList ∨
      JS.includesStr w "death".toList ∨ JS.includesStr w "term plan".toList) then
    "Life Insurance".toList
  else if wrongMatches.any (fun w => JS.includesStr w "motor".toList ∨
      JS.includesStr w "vehicle".toList ∨ JS.includesStr w "car".toList) then
    "Motor Insurance".toList
  else if wrongMatches.any (fun w => JS.includesStr w "travel".toList ∨
      JS.includesStr w "trip".toList) then
    "Travel Insurance".toList
  else if wrongMatches.any (fun w => JS.includesStr w "bank".toList ∨
      JS.includesStr w "transaction".toList ∨ JS.includesStr w "ifsc".toList) then
    "Bank Statement".toList
  else if wrongMatches.any (fun w => JS.includesStr w "resume".toList ∨
      JS.includesStr w "vitae".toList ∨ JS.includesStr w "experience".toList) then
    "Resume/CV".toList
  else if wrongMatches.any (fun w => JS.includesStr w "invoice".toList ∨
      JS.includesStr w "gst".toList) then
    "Invoice/Bill".toList
  else "Unknown".toList

/-- `validateWithCode` (`part_005` lines 234–305): two or more
wrong-document keywords reject outright; `minHealthKeywords + 2 = 6` or
more health keywords accept outright; three to five are uncertain; fewer
than three reject outright. -/
def validateWithCode (text : Str) : CodeCheck :=
  let normalized := normalizeText text
  let healthMatches := healthKeywords.filter (fun kw => JS.includesStr normalized kw)
  let wrongMatches := wrongDocKeywords.filter (fun kw => JS.includesStr normalized kw)
  if wrongMatches.length ≥ minWrongKeywords then
    let docType := detectDocType wrongMatches
    { definitelyValid := false, definitelyInvalid := true,
      reason := "Detected ".toList ++ JS.toLowerStr docType ++ " keywords: ".toList ++
        List.intercalate ", ".toList (wrongMatches.take 3),
      documentType := docType }
  else if healthMatches.length ≥ minHealthKeywords + 2 then
    { definitelyValid := true, definitelyInvalid := false,
      reason := "Found ".toList ++ JS.intStr healthMatches.length ++
        " health insurance keywords: ".toList ++
        List.intercalate ", ".toList (healthMatches.take 5),
      documentType := "Health Insurance".toList }
  else if healthMatches.length ≥ 3 then
    { definitelyValid := false, definitelyInvalid := false,
      reason := "Found only ".toList ++ JS.intStr healthMatches.length ++
        " health keywords, need confirmation".toList,
      documentType := "Possibly Health Insurance".toList }
  else
    { definitelyValid := false, definitelyInvalid := true,
      reason := "Only ".toList ++ JS.intStr healthMatches.length ++
        " health insurance keywords found".toList,
      documentType := "Unknown Document".toList }

/-- The Gemini fallback's parsed validation answer. -/
structure GemVal where
  isHealthInsurance : Bool
  documentType : Str
  reason : Str

/-- `interface ValidationResult` (`part_005` lines 226–232);
`method` is `"code"` or `"gemini"`. -/
structure ValidationResult where
  isValid : Bool
  isHealthInsurance : Bool
  documentType : Str
  reason : Str
  method : Str
  deriving DecidableEq, Repr

/-- `validateDocument` (`part_005` lines 307–369): the code check runs on
the first `validationSample = 4000` characters; a definite verdict answers
without Gemini, otherwise one Gemini call (also on the 4 000-character
sample) decides.  A Gemini failure propagates to the request boundary. -/
def validateDocument (text : Str) (oracle : Str → Except Str GemVal) :
    Except Str ValidationResult :=
  let codeCheck := validateWithCode (JS.substringTo text 4000)
  if codeCheck.definitelyInvalid then
    .ok { isValid := false, isHealthInsurance := false,
          documentType := codeCheck.documentType, reason := codeCheck.reason,
          method := "code".toList }
  else if codeCheck.definitelyValid then
    .ok { isValid := true, isHealthInsurance := true,
          documentType := "Health Insurance Policy".toList,
          reason := codeCheck.reason, method := "code".toList }
  else
    match oracle (JS.substringTo text 4000) with
    | .error e => .error e
    | .ok g =>
      .ok { isValid := g.isHealthInsurance, isHealthInsurance := g.isHealthInsurance,
            documentType := g.documentType, reason := g.reason,
            method := "gemini".toList }

/-- The invalid-document branch of `serve` (`part_005` lines 796–804):
when the hybrid validation says not health insurance, answer `400` with
`error: 'invalid_document'` and a detail message. -/
def serveValidationStep (text : Str) (oracle : Str → Except Str GemVal) :
    Except Str (Option (Nat × Str × Str)) :=
  match validateDocument text oracle with
  | .error e => .error e
  | .ok validation =>
    if !validation.isHealthInsurance then
      .ok (some (400, "invalid_document".toList,
        "Not a health insurance document. Detected: ".toList ++
          validation.documentType ++ ". ".toList ++ validation.reason))
    else .ok none

/-- `CONFIG.system.version` of this revision. -/
def version : Str := "3.1.0".toList

/-- `getCached` of revision 3.1.0 (`part_005` lines 156–165) — identical
logic to revision 3.0.0, against this revision's version string. -/
def getCached {α : Type} (cache : V3.Cache α) (hash : Str) (now : Nat) :
    Option α × V3.Cache α :=
  match V3.mapGet cache hash with
  | none => (none, cache)
  | some entry =>
    if entry.version ≠ version then (none, cache)
    else if now - entry.timestamp > V3.ttlSeconds * 1000 then
      (none, V3.mapDelete cache hash)
    else (some entry.result, cache)

/-- `setCache` of revision 3.1.0 (`part_005` lines 167–174). -/
def setCache {α : Type} (cache : V3.Cache α) (hash : Str) (result : α)
    (now : Nat) : V3.Cache α :=
  let c := V3.mapSet cache hash { result := result, timestamp := now, version := version }
  if c.length > V3.maxEntries then
    match c with
    | [] => c
    | (k0, _) :: _ => V3.mapDelete c k0
  else c

/-- The cached-response branch of `serve` (`part_005` line 788):
`{ ...cached, _cached: true }`. -/
def cachedResponse {α : Type} (cached : α) : α × Bool := (cached, true)

/-- `getUserFriendlyError` of revision 3.1.0 (`part_005` lines 213–220),
textually identical to revision 3.0.0's. -/
def getUserFriendlyError (msg : Str) : Str :=
  if JS.includesStr msg "429".toList then
    "Service busy. Please try again in a moment.".toList
  else if JS.includesStr msg "400".toList then
    "Could not process document. Please ensure it".toList ++ ['\''] ++
      "s a valid PDF.".toList
  else if JS.includesStr msg "401".toList ∨ JS.includesStr msg "403".toList then
    "Service configuration error. Contact support.".toList
  else if JS.includesStr msg "timeout".toList then
    "Analysis taking too long. Try a smaller document.".toList
  else "Analysis failed. Please try again.".toList

/-- Catch-all error response shape of revision 3.1.0. -/
structure CatchResp where
  status : Nat
  error : Str
  debug : Option Str
  deriving DecidableEq, Repr

/-- The catch handler of revision 3.1.0 (`part_005` lines 949–952): `500`
with `getUserFriendlyError` and no `_debug` field. -/
def catchResponse (msg : Str) : CatchResp :=
  { status := 500, error := getUserFriendlyError msg, debug := none }

end P5

/-! ## Namespace `P6` — the early cached revision (`src/unnamed/part_006`,
`CACHE_VERSION = "1.0.0"`, categories `GREAT/GOOD/BAD/UNCLEAR`) -/

namespace P6

/-- `classifyPedWaiting` (`part_006` lines 498–514), against
`CONFIG.thresholds.pedWaiting = { great.maxMonths 23, good.maxMonths 36,
bad.minMonths 37 }`. -/
def classifyPedWaiting (months : Option Int) : CategoryB × Str :=
  match months with
  | none => (.unclear, "PED waiting period not specified".toList)
  | some m =>
    if m ≤ 23 then
      (.great, "PED ".toList ++ JS.intStr m ++ " months (< 24 months)".toList)
    else if m ≤ 36 then
      (.good, "PED ".toList ++ JS.intStr m ++ " months (24-36 months = standard)".toList)
    else
      (.bad, "PED ".toList ++ JS.intStr m ++ " months (> 36 months)".toList)

/-- Window-end selection of `chunkDocument` (`part_006` lines 437–450):
prefer the last `"\n\n"` beyond 70 % of the window; failing that, the last
`". "` beyond 70 % (using the position after the period); otherwise the
full window.  As in revision 3.0.0, the float guard
`> start + maxCharsPerChunk * 0.7` compares against exactly `70000`,
so it holds iff the break index is `> start + 70000`. -/
def chunkEnd (text : Str) (start : Nat) : Nat :=
  let e0 := start + 100000
  if e0 < text.length then
    match jsLastIndexOf text "\n\n".toList e0 with
    | some b =>
      if start + 70000 < b then b
      else
        match jsLastIndexOf text ". ".toList e0 with
        | some sb => if start + 70000 < sb then sb + 1 else e0
        | none => e0
    | none =>
      match jsLastIndexOf text ". ".toList e0 with
      | some sb => if start + 70000 < sb then sb + 1 else e0
      | none => e0
  else e0

/-- Window bounds of the `while` loop of `chunkDocument` (`part_006`
lines 433–456), with `overlapChars = 2000` and `maxChunks = 5`. -/
def chunkBounds (text : Str) : List (Nat × Nat) :=
  chunkBoundsAux (chunkEnd text) 2000 text.length 0 5

/-- `chunkDocument` (`part_006` lines 426–457). -/
def chunkDocument (text : Str) : List Str :=
  if text.length ≤ 100000 then [text]
  else (chunkBounds text).map (fun p => JS.substring text p.1 p.2)

/-- A unique feature of this revision's schema
(`{ name, rawValue, quote, reference }`). -/
structure UF where
  name : Str
  rawValue : Str
  quote : Str
  reference : Str
  deriving DecidableEq, Repr

/-- An extraction result of this revision (`extractionSchema`,
`part_006` lines 862–1118): feature entries reuse the union record
`V3.FeatEntry` (this revision's entries carry a subset of those fields
plus `rawValue`, which the union record also has). -/
structure Extraction where
  policyInfo : Str → Option Str
  features : Str → Option V3.FeatEntry
  uniqueFeatures : List UF
  nonStandardExclusions : List Str

/-- Per-key `policyInfo` merge rule (`part_006` lines 1240–1251): fill in
only when the current value is missing/empty/`'Not specified'` and the new
value is a real one. -/
def mergePolicyInfoStep (cur : Option Str) (newv : Option Str) : Option Str :=
  match newv with
  | some v =>
    if (cur = none ∨ cur = some [] ∨ cur = some "Not specified".toList) ∧
        v ≠ [] ∧ v ≠ "Not specified".toList then some v
    else cur
  | none => cur

/-- Per-key feature merge rule (`part_006` lines 1254–1272): a not-found
current entry is replaced by a found new one; two found entries keep the
longer quote. -/
def mergeFeatStep (cur : Option V3.FeatEntry) (newv : Option V3.FeatEntry) :
    Option V3.FeatEntry :=
  match newv with
  | some f =>
    if V3.foundOf cur = false ∧ f.found then some f
    else if V3.foundOf cur ∧ f.found ∧ f.quoteLen > V3.qlenOf cur then some f
    else cur
  | none => cur

/-- Unique-feature dedup over all extractions (`part_006` lines 1276–1288),
by lowercased trimmed name. -/
def mergeUniquesAux (seen : List Str) (acc : List UF) : List UF → List Str × List UF
  | [] => (seen, acc)
  | uf :: rest =>
    let key := JS.trimStr (JS.toLowerStr uf.name)
    if seen.contains key then mergeUniquesAux seen acc rest
    else mergeUniquesAux (seen ++ [key]) (acc ++ [uf]) rest

/-- Exclusion dedup over all extractions (`part_006` lines 1291–1297): the
merged list holds the lowercased trimmed exclusion strings in first-seen
order (`[...new Set]`). -/
def mergeExclusionsAux (acc : List Str) : List Str → List Str
  | [] => acc
  | e :: rest =>
    let key := JS.trimStr (JS.toLowerStr e)
    if acc.contains key then mergeExclusionsAux acc rest
    else mergeExclusionsAux (acc ++ [key]) rest

/-- `mergeExtractions` (`part_006` lines 1227–1300): `none` models the
`throw` on an empty list; a singleton is returned unchanged; otherwise the
first extraction is the base, later ones are folded in per key, and the
unique-feature / exclusion lists are rebuilt over all extractions with
dedup. -/
def mergeExtractions (extractions : List Extraction) : Option Extraction :=
  match extractions with
  | [] => none
  | e :: rest =>
    some
      { policyInfo := fun k =>
          rest.foldl (fun cur ext => mergePolicyInfoStep cur (ext.policyInfo k))
            (e.policyInfo k),
        features := fun k =>
          rest.foldl (fun cur ext => mergeFeatStep cur (ext.features k))
            (e.features k),
        uniqueFeatures :=
          ((e :: rest).foldl (fun p ext => mergeUniquesAux p.1 p.2 ext.uniqueFeatures)
            (([] : List Str), ([] : List UF))).2,
        nonStandardExclusions :=
          (e :: rest).foldl (fun acc ext => mergeExclusionsAux acc ext.nonStandardExclusions)
            ([] : List Str) }

/-- `getUserFriendlyError` (`part_006` lines 460–492). -/
def getUserFriendlyError (msg : Str) : Str :=
  if JS.includesStr msg "429".toList ∨ JS.includesStr msg "rate limit".toList then
    "Our service is experiencing high demand. Please wait a moment and try again.".toList
  else if JS.includesStr msg "400".toList ∨ JS.includesStr msg "invalid".toList then
    "There was an issue processing your document. Please ensure it".toList ++
      ['\''] ++ "s a valid health insurance policy PDF.".toList
  else if JS.includesStr msg "401".toList ∨ JS.includesStr msg "403".toList ∨
      JS.includesStr msg "authentication".toList then
    "Service configuration error. Please contact support.".toList
  else if JS.includesStr msg "500".toList ∨ JS.includesStr msg "503".toList then
    "Our analysis service is temporarily unavailable. Please try again in a few minutes.".toList
  else if JS.includesStr msg "timeout".toList ∨ JS.includesStr msg "ETIMEDOUT".toList then
    ("The analysis is taking longer than expected. Please try with a smaller " ++
     "document or try again later.").toList
  else if JS.includesStr msg "safety".toList ∨ JS.includesStr msg "blocked".toList then
    ("The document could not be processed due to content restrictions. " ++
     "Please try a different document.").toList
  else if JS.includesStr msg "JSON".toList ∨ JS.includesStr msg "parse".toList then
    "There was an error processing the analysis results. Please try again.".toList
  else
    ("An unexpected error occurred. Please try again or contact support " ++
     "if the issue persists.").toList

/-- Catch-all error response of `part_006` (lines 2004–2018): `500` with a
user-friendly message and a `_debug` object `{ message, processingTimeMs }`. -/
structure CatchResp where
  status : Nat
  error : Str
  debugMessage : Str
  debugProcessingTimeMs : Nat
  deriving DecidableEq, Repr

/-- The catch handler of `part_006`. -/
def catchResponse (msg : Str) (procMs : Nat) : CatchResp :=
  { status := 500, error := getUserFriendlyError msg,
    debugMessage := msg, debugProcessingTimeMs := procMs }

/-- The short-document guard of `serve` (`part_006` lines 1331–1340):
`!policyText || policyText.trim().length < 500` answers `400` before any
other step (the cache lookup, key fetch and LLM calls all come later). -/
def shortDocGuard (policyText : Str) : Option (Nat × Str) :=
  if (JS.trimStr policyText).length < 500 then
    some (400, ("Document too short or empty. Please upload a complete " ++
      "health insurance policy document.").toList)
  else none

/-! ### The `part_006` cache (`CONFIG.cache` lines 141–144, cache
functions lines 220–280, the cache-hit branch of `serve` lines 1345–1367,
the fresh `_meta` lines 1984–1991).  The entry shape `{ result, timestamp,
version }` matches revision 3.0.0's, so `V3.Cache` is reused. -/

/-- `CONFIG.cache.ttlSeconds` of `part_006` (line 143): `86400 * 7`. -/
def ttlSeconds : Nat := 86400 * 7

/-- `CACHE_VERSION` (`part_006` line 228). -/
def CACHE_VERSION : Str := "1.0.0".toList

/-- `getCachedResult` (`part_006` lines 244–264): miss on an absent key;
delete the entry and miss on a version mismatch or on TTL expiry;
otherwise return the stored result unchanged.  The JS expiry test
`(Date.now() - entry.timestamp) / 1000 > ttlSeconds` is an exact float
comparison equivalent to `now - timestamp > ttlSeconds * 1000`. -/
def getCachedResult {α : Type} (cache : V3.Cache α) (hash : Str) (now : Nat) :
    Option α × V3.Cache α :=
  match V3.mapGet cache hash with
  | none => (none, cache)
  | some entry =>
    if entry.version ≠ CACHE_VERSION then (none, V3.mapDelete cache hash)
    else if now - entry.timestamp > ttlSeconds * 1000 then
      (none, V3.mapDelete cache hash)
    else (some entry.result, cache)

/-- `setCachedResult` (`part_006` lines 267–280): insert the entry, then
if the map holds more than 100 entries evict the oldest key (the first key
in insertion order). -/
def setCachedResult {α : Type} (cache : V3.Cache α) (hash : Str) (result : α)
    (now : Nat) : V3.Cache α :=
  let c := V3.mapSet cache hash
    { result := result, timestamp := now, version := CACHE_VERSION }
  if c.length > 100 then
    match c with
    | [] => c
    | (k0, _) :: _ => V3.mapDelete c k0
  else c

/-- The `_meta` object of a `part_006` response: a fresh response (lines
1984–1991) carries `cacheHit: false` and *no* `cached` key (`none` here);
the cache-hit reply (lines 1357–1361) rewrites both. -/
structure Meta where
  processingTimeMs : Nat
  documentLength : Nat
  chunksProcessed : Nat
  featuresAnalyzed : Nat
  cached : Option Bool
  cacheHit : Bool
  version : Str
  deriving DecidableEq

/-- A `part_006` response as the cache stores and replays it: the payload
(every field other than `_meta`, spread through unchanged by the cache-hit
branch) and `_meta`.  The shape has no `_cached` field — that flag exists
only in revisions 3.0.0 / 3.1.0. -/
structure Response (α : Type) where
  payload : α
  _meta : Meta
  deriving DecidableEq

/-- The cache-hit reply of `serve` (`part_006` lines 1352–1365):
`{ ...cachedResult, _meta: { ...cachedResult._meta, cached: true,
cacheHit: true } }`. -/
def cachedReply {α : Type} (r : Response α) : Response α :=
  { r with _meta := { r._meta with cached := some true, cacheHit := true } }

end P6

/-! # Claims

One theorem per claim of the frozen claim list, with counterexamples and
witnesses where required. -/

/-! ## C1 — PED waiting-period thresholds -/

/-- C1 (counterexample): the claim asserts that `m = 24` classifies as GOOD
and `m = 37` as RED_FLAG in **each** revision's PED classifier, *including*
the revision whose threshold table sets `great: 24` and `redFlag: 48`.
That revision is 6.0.0 (`classifyFeature` against `FEATURES.pedWaiting`),
and there a 24-month PED waiting period classifies as GREAT (because
`24 ≤ great = 24`) and a 37-month one as GOOD (because `37 < redFlag = 48`),
refuting the claim at these concrete inputs. -/
theorem c1_counterexample :
    V6.classifyFeature "pedWaiting".toList "24 months".toList (some 24) = Category.great ∧
    V6.classifyFeature "pedWaiting".toList "37 months".toList (some 37) = Category.good := by
  exact ⟨by decide, by decide⟩

/-- C1 (amended): the boundary table `m ≤ 23 → GREAT`, `24 ≤ m ≤ 36 → GOOD`,
`m ≥ 37 → RED_FLAG` holds for the `classifyPedWaiting` of revision 3.0.0
(also of 3.1.0, whose `classifyPedWaiting` is textually identical) and, with
`BAD` in the role of `RED_FLAG`, for the `classifyPedWaiting` of `part_006`.
In revision 6.0.0, whose threshold row is `{ great: 24, redFlag: 48 }`,
`classifyFeature` instead maps `m ≤ 24` to GREAT (so 24 ↦ GREAT, not GOOD),
`25 ≤ m ≤ 47` to GOOD (so 37 ↦ GOOD, not RED_FLAG) and `m ≥ 48` to
RED_FLAG, for every feature value string. -/
theorem c1_pedWaiting_thresholds :
    (∀ m : Int,
      (V3.classifyPedWaiting (some m)).1 =
        (if m ≤ 23 then Category.great else if m ≤ 36 then Category.good
         else Category.redFlag)) ∧
    (∀ m : Int,
      (P6.classifyPedWaiting (some m)).1 =
        (if m ≤ 23 then CategoryB.great else if m ≤ 36 then CategoryB.good
         else CategoryB.bad)) ∧
    (∀ (value : Str) (m : Int),
      V6.classifyFeature "pedWaiting".toList value (some m) =
        (if m ≤ 24 then Category.great
         else if m ≥ 48 then Category.redFlag else Category.good)) := by
  refine ⟨fun m => ?_, fun m => ?_, fun value m => ?_⟩
  · simp only [V3.classifyPedWaiting]
    split_ifs <;> rfl
  · simp only [P6.classifyPedWaiting]
    split_ifs <;> rfl
  · unfold V6.classifyFeature
    rw [show V6.FEATURES "pedWaiting".toList =
      some { name := "Pre-Existing Disease Waiting".toList,
             lowerBetter := some true, great := some 24, redFlag := some 48 } from rfl]
    simp only [Option.getD, List.any_nil, Bool.false_eq_true, if_false]
    split_ifs <;> rfl

/-! ## C3 — bucket partition of the response -/

/-- The four category filters of a list, concatenated, are a permutation of
the list (helper for C3). -/
theorem four_filter_perm {α : Type} (cat : α → Category) (l : List α) :
    List.Perm
      ((l.filter fun x => cat x = Category.great) ++
       ((l.filter fun x => cat x = Category.good) ++
        ((l.filter fun x => cat x = Category.redFlag) ++
         (l.filter fun x => cat x = Category.unclear)))) l := by
  induction l with
  | nil => simp
  | cons a t ih =>
    rcases h : cat a with _ | _ | _ | _
    · simpa [List.filter_cons, h] using ih.cons a
    · simp only [List.filter_cons, h]
      simp only [decide_eq_true_eq]
      norm_num
      exact List.perm_middle.trans (ih.cons a)
    · simp only [List.filter_cons, h]
      simp only [decide_eq_true_eq]
      norm_num
      exact (((List.perm_middle).append_left _).trans List.perm_middle).trans (ih.cons a)
    · simp only [List.filter_cons, h]
      simp only [decide_eq_true_eq]
      norm_num
      exact ((((List.perm_middle).append_left _).append_left _).trans
        ((List.perm_middle).append_left _) |>.trans List.perm_middle).trans (ih.cons a)

/-- Mapped version of `four_filter_perm` (the response arrays hold the
formatted projections of the filtered features). -/
theorem four_filter_map_perm {α β : Type} (cat : α → Category) (g : α → β) (l : List α) :
    List.Perm
      (((l.filter fun x => cat x = Category.great).map g) ++
       (((l.filter fun x => cat x = Category.good).map g) ++
        (((l.filter fun x => cat x = Category.redFlag).map g) ++
         ((l.filter fun x => cat x = Category.unclear).map g)))) (l.map g) := by
  simpa [List.map_append] using (four_filter_perm cat l).map g

/-- C3 (confirmed): in each embedded response builder — revision 3.0.0
(`index.ts` lines 989–1008), revision 4.0.0 (`part_004` lines 689–727) and
revision 6.0.0 (`index.ts` lines 237–270) — every feature's category is one
of the four enumerated values, the four output arrays together are a
permutation of the full (formatted) feature list — so no feature is dropped
or duplicated and each lands in exactly the bucket of its category — and
every summary count equals the length of its bucket. -/
theorem c3_buckets_partition :
    (∀ (extraction : V3.Extraction) (validation : V3.ValidationOut)
       (features : List V3.AnalyzedFeature) (docHash : Str) (procMs : Nat),
      List.Perm
        ((V3.buildResult extraction validation features docHash procMs).greatFeatures ++
         ((V3.buildResult extraction validation features docHash procMs).goodFeatures ++
          ((V3.buildResult extraction validation features docHash procMs).redFlags ++
           (V3.buildResult extraction validation features docHash procMs).needsClarification)))
        (features.map V3.fmt) ∧
      (V3.buildResult extraction validation features docHash procMs).summary =
        { great := (V3.buildResult extraction validation features docHash procMs).greatFeatures.length,
          good := (V3.buildResult extraction validation features docHash procMs).goodFeatures.length,
          redFlags := (V3.buildResult extraction validation features docHash procMs).redFlags.length,
          unclear := (V3.buildResult extraction validation features docHash procMs).needsClarification.length } ∧
      ∀ f ∈ features, f.category = Category.great ∨ f.category = Category.good ∨
        f.category = Category.redFlag ∨ f.category = Category.unclear) ∧
    (∀ (pInfo : Str → Option Str) (finalFeatures : List P4.ClassifiedFeature)
       (procMs fx cc ac : Nat),
      List.Perm
        ((P4.buildResult pInfo finalFeatures procMs fx cc ac).greatFeatures ++
         ((P4.buildResult pInfo finalFeatures procMs fx cc ac).goodFeatures ++
          ((P4.buildResult pInfo finalFeatures procMs fx cc ac).redFlags ++
           (P4.buildResult pInfo finalFeatures procMs fx cc ac).needsClarification)))
        (finalFeatures.map P4.formatFeature) ∧
      (P4.buildResult pInfo finalFeatures procMs fx cc ac).summary =
        { great := (P4.buildResult pInfo finalFeatures procMs fx cc ac).greatFeatures.length,
          good := (P4.buildResult pInfo finalFeatures procMs fx cc ac).goodFeatures.length,
          redFlags := (P4.buildResult pInfo finalFeatures procMs fx cc ac).redFlags.length,
          unclear := (P4.buildResult pInfo finalFeatures procMs fx cc ac).needsClarification.length } ∧
      ∀ f ∈ finalFeatures, f.category = Category.great ∨ f.category = Category.good ∨
        f.category = Category.redFlag ∨ f.category = Category.unclear) ∧
    (∀ (raws : List V6.RawFeature) (procMs : Nat),
      List.Perm
        ((V6.buildResult raws procMs).greatFeatures ++
         ((V6.buildResult raws procMs).goodFeatures ++
          ((V6.buildResult raws procMs).redFlags ++
           (V6.buildResult raws procMs).needsClarification)))
        ((V6.classifyAll raws).map V6.format) ∧
      (V6.buildResult raws procMs).summaryGreat = (V6.buildResult raws procMs).greatFeatures.length ∧
      (V6.buildResult raws procMs).summaryGood = (V6.buildResult raws procMs).goodFeatures.length ∧
      (V6.buildResult raws procMs).summaryRedFlags = (V6.buildResult raws procMs).redFlags.length ∧
      (V6.buildResult raws procMs).summaryUnclear =
        (V6.buildResult raws procMs).needsClarification.length ∧
      ∀ f ∈ V6.classifyAll raws, f.category = Category.great ∨ f.category = Category.good ∨
        f.category = Category.redFlag ∨ f.category = Category.unclear) := by
  refine ⟨fun extraction validation features docHash procMs => ⟨?_, ?_, ?_⟩,
    fun pInfo finalFeatures procMs fx cc ac => ⟨?_, ?_, ?_⟩,
    fun raws procMs => ⟨?_, ?_, ?_, ?_, ?_, ?_⟩⟩
  · simpa [V3.buildResult] using
      four_filter_map_perm (fun f => f.category) V3.fmt features
  · simp [V3.buildResult]
  · intro f _
    rcases h : f.category <;> simp
  · simpa [P4.buildResult] using
      four_filter_map_perm (fun f => f.category) P4.formatFeature finalFeatures
  · simp [P4.buildResult]
  · intro f _
    rcases h : f.category <;> simp
  · simpa [V6.buildResult] using
      four_filter_map_perm (fun f => f.category) V6.format (V6.classifyAll raws)
  · simp [V6.buildResult]
  · simp [V6.buildResult]
  · simp [V6.buildResult]
  · simp [V6.buildResult]
  · intro f _
    rcases h : f.category <;> simp

/-! ## C10 — revision 6.0.0 never returns UNCLEAR -/

/-- C10 (confirmed): in the regex-only revision 6.0.0, `classifyFeature`
never returns UNCLEAR — every branch yields GREAT, GOOD or RED_FLAG, with
GOOD the default, including for feature ids absent from the `FEATURES`
table — and consequently the `needsClarification` array of every success
response of that revision is empty and `summary.unclear` is `0` (stated for
every raw feature list, hence in particular for the regex extraction of any
request). -/
theorem c10_regex_never_unclear :
    (∀ (id value : Str) (num : Option Int),
      V6.classifyFeature id value num ≠ Category.unclear) ∧
    (∀ (id value : Str) (num : Option Int), V6.FEATURES id = none →
      V6.classifyFeature id value num = Category.good) ∧
    (∀ (raws : List V6.RawFeature) (procMs : Nat),
      (V6.buildResult raws procMs).needsClarification = [] ∧
      (V6.buildResult raws procMs).summaryUnclear = 0) := by
  have part1 : ∀ (id value : Str) (num : Option Int),
      V6.classifyFeature id value num ≠ Category.unclear := by
    intro id value num
    unfold V6.classifyFeature
    cases hc : V6.FEATURES id with
    | none => simp
    | some config =>
      rcases num with _ | n <;> rcases hg : config.great with _ | g <;>
        rcases hr : config.redFlag with _ | r <;>
        simp only [] <;> split_ifs <;> try simp_all
      all_goals (split_ifs <;> simp_all)
  refine ⟨part1, ?_, ?_⟩
  · intro id value num h
    unfold V6.classifyFeature
    rw [h]
  · intro raws procMs
    have hfil : (V6.classifyAll raws).filter (fun f => f.category = Category.unclear) = [] := by
      rw [List.filter_eq_nil_iff]
      intro f hf
      simp only [V6.classifyAll, List.mem_map] at hf
      obtain ⟨r, _, rfl⟩ := hf
      simpa using part1 r.id r.value r.num
    exact ⟨by simp [V6.buildResult, hfil], by simp [V6.buildResult, hfil]⟩

/-- Concrete raw feature used by the C10 witness. -/
def c10raw : V6.RawFeature :=
  { id := "pedWaiting".toList, value := "24 months".toList, num := some 24 }

/-- C10 (witness): the theorem applied at concrete inputs — the unknown
feature id `"zzz"` defaults to GOOD, a known feature never yields UNCLEAR,
and a concrete one-feature response has an empty `needsClarification`. -/
theorem c10_witness :
    V6.FEATURES "zzz".toList = none ∧
    V6.classifyFeature "zzz".toList "x".toList (some 5) = Category.good ∧
    V6.classifyFeature "pedWaiting".toList "x".toList (some 30) ≠ Category.unclear ∧
    (V6.buildResult [c10raw] 0).needsClarification = [] :=
  ⟨rfl,
   c10_regex_never_unclear.2.1 "zzz".toList "x".toList (some 5) rfl,
   c10_regex_never_unclear.1 "pedWaiting".toList "x".toList (some 30),
   (c10_regex_never_unclear.2.2 [c10raw] 0).1⟩

/-! ## C8 — error responses at the request boundary -/

/-- C8 (counterexample): the claim asserts that *every* revision's
catch-all handler returns a `_debug` field carrying the internal error
message.  In revisions 3.0.0 (`index.ts` lines 1015–1018) and 3.1.0
(`part_005` lines 949–952) the catch handler returns only
`{ error: getUserFriendlyError(error) }` — no `_debug` field — as shown
here at the concrete internal error `"boom"`. -/
theorem c8_counterexample :
    V3.catchResponse "boom".toList =
      V3.ServeOut.err 500 { error := "Analysis failed. Please try again.".toList,
                            message := none, debug := none } ∧
    P5.catchResponse "boom".toList =
      { status := 500, error := "Analysis failed. Please try again.".toList,
        debug := none } ∧
    (none : Option Str) ≠ some "boom".toList :=
  ⟨rfl, rfl, by simp⟩

/-- C8 (amended): every revision's catch-all handler answers status `500`
with a user-friendly message in `error`; the `_debug` field carrying the
internal error message is present in revisions 6.0.0, 9.0.0, 4.0.0 and in
`part_006` (whose `_debug` is an object with the message and the processing
time), but absent in revisions 3.0.0 and 3.1.0. -/
theorem c8_error_responses (msg : Str) (procMs : Nat) :
    ((V6.catchResponse msg).status = 500 ∧ (V6.catchResponse msg).debug = some msg) ∧
    (∃ um, P3.catchResponse msg = P3.Out.err 500 um (some msg)) ∧
    ((P4.catchResponse msg).status = 500 ∧ (P4.catchResponse msg).debug = some msg) ∧
    ((P6.catchResponse msg procMs).status = 500 ∧
     (P6.catchResponse msg procMs).debugMessage = msg) ∧
    (V3.catchResponse msg =
      V3.ServeOut.err 500 { error := V3.getUserFriendlyError msg }) ∧
    ((P5.catchResponse msg).status = 500 ∧ (P5.catchResponse msg).debug = none) :=
  ⟨⟨rfl, rfl⟩, ⟨_, rfl⟩, ⟨rfl, rfl⟩, ⟨rfl, rfl⟩, rfl, ⟨rfl, rfl⟩⟩

/-! ## C9 — the validity verdict depends only on a fixed-size prefix -/

/-- C9 (confirmed): for each revision with a `validateDocument`, once two
texts both pass the minimum-length check, the verdict is a function of the
fixed-size prefix alone — the first 10 000 characters in revisions 6.0.0,
9.0.0 and 4.0.0, the first 4 000 in the hybrid revision 3.1.0 (whose length
check lives in `serve`, so no length hypothesis is needed, and whose Gemini
fallback also only ever sees the 4 000-character sample, hence equal
prefixes give equal verdicts for any fixed oracle).  Keywords after the
prefix can never affect acceptance. -/
theorem c9_validation_prefix_only :
    (∀ t1 t2 : Str, 500 ≤ t1.length → 500 ≤ t2.length →
      JS.substringTo t1 10000 = JS.substringTo t2 10000 →
      V6.validateDocument t1 = V6.validateDocument t2) ∧
    (∀ t1 t2 : Str, 500 ≤ t1.length → 500 ≤ t2.length →
      JS.substringTo t1 10000 = JS.substringTo t2 10000 →
      P3.validateDocument t1 = P3.validateDocument t2) ∧
    (∀ t1 t2 : Str, 500 ≤ t1.length → 500 ≤ t2.length →
      JS.substringTo t1 10000 = JS.substringTo t2 10000 →
      P4.validateDocument t1 = P4.validateDocument t2) ∧
    (∀ (t1 t2 : Str) (oracle : Str → Except Str P5.GemVal),
      JS.substringTo t1 4000 = JS.substringTo t2 4000 →
      P5.validateDocument t1 oracle = P5.validateDocument t2 oracle) := by
  refine ⟨?_, ?_, ?_, ?_⟩
  · intro t1 t2 h1 h2 hpre
    unfold V6.validateDocument
    rw [if_neg (show ¬t1.length < 500 by omega),
      if_neg (show ¬t2.length < 500 by omega), hpre]
  · intro t1 t2 h1 h2 hpre
    unfold P3.validateDocument
    rw [if_neg (show ¬t1.length < 500 by omega),
      if_neg (show ¬t2.length < 500 by omega), hpre]
  · intro t1 t2 h1 h2 hpre
    unfold P4.validateDocument
    rw [if_neg (show ¬t1.length < 500 by omega),
      if_neg (show ¬t2.length < 500 by omega), hpre]
  · intro t1 t2 oracle hpre
    unfold P5.validateDocument
    rw [hpre]

/-- First C9 witness text: 10 000 characters, no keywords at all. -/
def c9t1 : Str := List.replicate 10000 'a'

/-- Second C9 witness text: same 10 000-character prefix, health-insurance
keywords only *after* the prefix. -/
def c9t2 : Str := List.replicate 10000 'a' ++
  " health insurance hospitalization cashless sum insured irdai claim waiting period".toList

/-- Fixed oracle for the 3.1.0 conjunct of the C9 witness. -/
def c9oracle : Str → Except Str P5.GemVal := fun _ => Except.error []

/-- C9 (witness): the theorem applied to two concrete texts that agree on
the prefix but differ (by trailing keywords) afterwards. -/
theorem c9_witness :
    (500 ≤ c9t1.length ∧ 500 ≤ c9t2.length ∧
     JS.substringTo c9t1 10000 = JS.substringTo c9t2 10000 ∧
     JS.substringTo c9t1 4000 = JS.substringTo c9t2 4000) ∧
    V6.validateDocument c9t1 = V6.validateDocument c9t2 ∧
    P3.validateDocument c9t1 = P3.validateDocument c9t2 ∧
    P4.validateDocument c9t1 = P4.validateDocument c9t2 ∧
    P5.validateDocument c9t1 c9oracle = P5.validateDocument c9t2 c9oracle := by
  have h1 : (500 : Nat) ≤ c9t1.length := by
    unfold c9t1; rw [List.length_replicate]; omega
  have h2 : (500 : Nat) ≤ c9t2.length := by
    unfold c9t2; rw [List.length_append, List.length_replicate]; omega
  have hpre : JS.substringTo c9t1 10000 = JS.substringTo c9t2 10000 := by
    unfold c9t1 c9t2 JS.substringTo
    rw [List.take_append_of_le_length (by rw [List.length_replicate])]
  have hpre4 : JS.substringTo c9t1 4000 = JS.substringTo c9t2 4000 := by
    unfold c9t1 c9t2 JS.substringTo
    rw [List.take_append_of_le_length (by rw [List.length_replicate]; omega)]
  exact ⟨⟨h1, h2, hpre, hpre4⟩,
    c9_validation_prefix_only.1 c9t1 c9t2 h1 h2 hpre,
    c9_validation_prefix_only.2.1 c9t1 c9t2 h1 h2 hpre,
    c9_validation_prefix_only.2.2.1 c9t1 c9t2 h1 h2 hpre,
    c9_validation_prefix_only.2.2.2 c9t1 c9t2 c9oracle hpre4⟩

/-! ## C4 — cache round-trip -/

/-- Looking up the key just written by `mapSet` finds the new entry. -/
theorem mapGet_mapSet_self {α : Type} (c : V3.Cache α) (k : Str) (v : V3.CacheEntry α) :
    V3.mapGet (V3.mapSet c k v) k = some v := by
  induction c with
  | nil => simp [V3.mapSet, V3.mapGet]
  | cons p rest ih =>
    obtain ⟨k', v'⟩ := p
    by_cases h : k' = k <;> simp [V3.mapSet, V3.mapGet, h, ih]

/-- Deleting a different key does not change a lookup. -/
theorem mapGet_mapDelete_ne {α : Type} (c : V3.Cache α) (k0 k : Str) (h : k0 ≠ k) :
    V3.mapGet (V3.mapDelete c k0) k = V3.mapGet c k := by
  induction c with
  | nil => simp [V3.mapDelete, V3.mapGet]
  | cons p rest ih =>
    obtain ⟨k', v'⟩ := p
    by_cases h1 : k' = k0
    · subst h1
      simp [V3.mapDelete, V3.mapGet, h]
    · by_cases h2 : k' = k
      · subst h2
        simp [V3.mapDelete, V3.mapGet, h1, Ne.symm h, ih]
      · simp [V3.mapDelete, V3.mapGet, h1, h2, ih]

/-- Setting an existing key keeps the map size. -/
theorem mapSet_mem_length {α : Type} (c : V3.Cache α) (k : Str) (v : V3.CacheEntry α)
    (h : k ∈ c.map Prod.fst) : (V3.mapSet c k v).length = c.length := by
  induction c with
  | nil => simp at h
  | cons p rest ih =>
    obtain ⟨k', v'⟩ := p
    by_cases hk : k' = k
    · simp [V3.mapSet, hk]
    · rw [List.map_cons] at h
      rcases List.mem_cons.mp h with h | h
      · exact absurd h.symm hk
      · simp [V3.mapSet, hk, ih h]

/-- Setting a fresh key appends it at the end (newest position). -/
theorem mapSet_not_mem {α : Type} (c : V3.Cache α) (k : Str) (v : V3.CacheEntry α)
    (h : k ∉ c.map Prod.fst) : V3.mapSet c k v = c ++ [(k, v)] := by
  induction c with
  | nil => simp [V3.mapSet]
  | cons p rest ih =>
    obtain ⟨k', v'⟩ := p
    have hk : k' ≠ k := by
      intro he
      exact h (by rw [List.map_cons, ← he]; exact List.mem_cons_self _ _)
    have h' : k ∉ rest.map Prod.fst := by
      intro hm
      exact h (by rw [List.map_cons]; exact List.mem_cons_of_mem _ hm)
    simp [V3.mapSet, hk, ih h']

/-- After `setCache` on a cache within its size bound, the entry just
stored is found under its key: the possible eviction of the oldest entry
can never hit the entry just written. -/
theorem setCache_get {α : Type} (c : V3.Cache α) (k : Str) (r : α) (t : Nat)
    (hsize : c.length ≤ V3.maxEntries) :
    V3.mapGet (V3.setCache c k r t) k =
      some { result := r, timestamp := t, version := V3.version } := by
  unfold V3.setCache
  set v : V3.CacheEntry α := { result := r, timestamp := t, version := V3.version } with hv
  by_cases hlen : (V3.mapSet c k v).length > V3.maxEntries
  · rw [if_pos hlen]
    have hmem : k ∉ c.map Prod.fst := by
      intro hk
      rw [mapSet_mem_length c k v hk] at hlen
      omega
    have happ : V3.mapSet c k v = c ++ [(k, v)] := mapSet_not_mem c k v hmem
    cases c with
    | nil =>
      rw [happ] at hlen
      simp [V3.maxEntries] at hlen
    | cons p rest =>
      obtain ⟨k0, v0⟩ := p
      have hk0 : k0 ≠ k := by
        intro he
        exact hmem (by rw [List.map_cons, ← he]; exact List.mem_cons_self _ _)
      rw [happ]
      simp only [List.cons_append]
      rw [← List.cons_append, ← happ, mapGet_mapDelete_ne _ _ _ hk0,
        mapGet_mapSet_self]
  · rw [if_neg hlen]
    exact mapGet_mapSet_self c k v

/-- Revision 3.1.0 analogue of `setCache_get`. -/
theorem setCacheP5_get {α : Type} (c : V3.Cache α) (k : Str) (r : α) (t : Nat)
    (hsize : c.length ≤ V3.maxEntries) :
    V3.mapGet (P5.setCache c k r t) k =
      some { result := r, timestamp := t, version := P5.version } := by
  unfold P5.setCache
  set v : V3.CacheEntry α := { result := r, timestamp := t, version := P5.version } with hv
  by_cases hlen : (V3.mapSet c k v).length > V3.maxEntries
  · rw [if_pos hlen]
    have hmem : k ∉ c.map Prod.fst := by
      intro hk
      rw [mapSet_mem_length c k v hk] at hlen
      omega
    have happ : V3.mapSet c k v = c ++ [(k, v)] := mapSet_not_mem c k v hmem
    cases c with
    | nil =>
      rw [happ] at hlen
      simp [V3.maxEntries] at hlen
    | cons p rest =>
      obtain ⟨k0, v0⟩ := p
      have hk0 : k0 ≠ k := by
        intro he
        exact hmem (by rw [List.map_cons, ← he]; exact List.mem_cons_self _ _)
      rw [happ]
      simp only [List.cons_append]
      rw [← List.cons_append, ← happ, mapGet_mapDelete_ne _ _ _ hk0,
        mapGet_mapSet_self]
  · rw [if_neg hlen]
    exact mapGet_mapSet_self c k v

/-- C4 (amended): in the caching revisions 3.0.0 and 3.1.0, if a result
`r` computed for a document is stored at time `t1` (`setCache` at the end
of the first request) and the same document — hence the same content hash —
is looked up at time `t2` within the TTL on the same warm cache (no
intervening requests), then `getCached` returns exactly the stored value
`r`, and the served payload is `{ ...r, _cached: true }`
(`cachedResponse r = (r, true)`): a byte-identical copy of the first
result plus the `_cached` flag.  The size hypothesis is the invariant
`setCache` itself maintains (`maxEntries = 100`); the JS TTL test
`(t2 - t1) / 1000 > 604800` is exactly `t2 - t1 > 604800 * 1000`. -/
theorem c4_cache_roundtrip {α : Type} (c : V3.Cache α) (h : Str) (r : α) (t1 t2 : Nat)
    (hsize : c.length ≤ V3.maxEntries)
    (httl : t2 - t1 ≤ V3.ttlSeconds * 1000) :
    (V3.getCached (V3.setCache c h r t1) h t2).1 = some r ∧
    V3.cachedResponse r = (r, true) ∧
    (P5.getCached (P5.setCache c h r t1) h t2).1 = some r ∧
    P5.cachedResponse r = (r, true) := by
  refine ⟨?_, rfl, ?_, rfl⟩
  · unfold V3.getCached
    rw [setCache_get c h r t1 hsize]
    simp only []
    rw [if_neg (by simp), if_neg (by omega)]
  · unfold P5.getCached
    rw [setCacheP5_get c h r t1 hsize]
    simp only []
    rw [if_neg (by simp), if_neg (by omega)]

/-- C4 (witness): the round trip on an initially empty warm cache, storing
at time `0` and re-requesting at time `1000` (well within the 7-day TTL). -/
theorem c4_witness :
    (([] : V3.Cache Nat).length ≤ V3.maxEntries ∧
     (1000 : Nat) - 0 ≤ V3.ttlSeconds * 1000) ∧
    (V3.getCached (V3.setCache ([] : V3.Cache Nat) "h".toList 42 0) "h".toList 1000).1 =
      some 42 ∧
    (P5.getCached (P5.setCache ([] : V3.Cache Nat) "h".toList 42 0) "h".toList 1000).1 =
      some 42 := by
  have hsize : ([] : V3.Cache Nat).length ≤ V3.maxEntries := by simp
  have httl : (1000 : Nat) - 0 ≤ V3.ttlSeconds * 1000 := by simp [V3.ttlSeconds]
  have hmain := c4_cache_roundtrip ([] : V3.Cache Nat) "h".toList 42 0 1000 hsize httl
  exact ⟨⟨hsize, httl⟩, hmain.1, hmain.2.2.1⟩

/-- The fresh `_meta` of a first `part_006` response (lines 1984–1991):
`cacheHit: false` and no `cached` key. -/
def c4meta : P6.Meta :=
  { processingTimeMs := 1234, documentLength := 600, chunksProcessed := 1,
    featuresAnalyzed := 12, cached := none, cacheHit := false,
    version := P6.CACHE_VERSION }

/-- A concrete first response of `part_006` for the C4 counterexample. -/
def c4resp : P6.Response Nat := { payload := 7, _meta := c4meta }

/-- C4 (counterexample): the claim ranges over the caching revisions, but
in `part_006` — whose cache is enabled — a warm-cache hit does not return
a byte-identical copy of the first result with `_cached: true`:
`getCachedResult` does return the stored result unchanged, yet the served
reply rewrites `_meta` (`cached: true`, `cacheHit: true`, against
`cacheHit: false` and no `cached` key in the stored response), so the
reply differs from the first response — and the response shape carries no
`_cached` field at all. -/
theorem c4_counterexample :
    (P6.getCachedResult
      (P6.setCachedResult ([] : V3.Cache (P6.Response Nat)) "h".toList c4resp 0)
      "h".toList 1000).1 = some c4resp ∧
    P6.cachedReply c4resp ≠ c4resp ∧
    (P6.cachedReply c4resp)._meta.cacheHit = true ∧
    c4resp._meta.cacheHit = false ∧
    (P6.cachedReply c4resp)._meta.cached = some true ∧
    c4resp._meta.cached = none := by
  refine ⟨rfl, ?_, rfl, rfl, rfl, rfl⟩
  intro h
  have := congrArg (fun r => (P6.Response._meta r).cacheHit) h
  simp [P6.cachedReply, c4resp, c4meta] at this

/-! ## C7 — short documents are rejected before any LLM call -/

/-- Trimming never lengthens a string (so a text shorter than 500
characters also trims to fewer than 500). -/
theorem trim_length_le (s : Str) : (JS.trimStr s).length ≤ s.length := by
  unfold JS.trimStr
  rw [List.length_reverse]
  exact le_trans ((List.dropWhile_sublist _).length_le)
    (by rw [List.length_reverse]; exact (List.dropWhile_sublist _).length_le)

/-- C7 (confirmed): a policy text shorter than 500 characters is answered
with status 400 and zero LLM calls.  In revision 3.0.0 the length guard is
the first statement of `serve`, so the full handler returns the
too-short 400 body, makes `0` oracle calls and leaves the cache untouched,
for every environment, cache state, time and oracle.  In revision 9.0.0
(given a configured API key — a missing key is answered before validation)
the handler returns a 400 error with `0` Claude calls.  In `part_006` the
short-document guard likewise fires with status 400 (it precedes the cache
lookup, key fetch and every LLM call in that handler). -/
theorem c7_short_document_no_llm :
    (∀ (apiKey : Option Str) (sha : Str → Str) (cache : V3.Cache V3.Result)
       (now procMs : Nat) (o : V3.Oracle) (text : Str),
      text.length < 500 →
      V3.serve apiKey sha cache now procMs o text =
        (V3.ServeOut.err 400
          { error := "Document too short. Upload a complete policy.".toList }, 0, cache)) ∧
    (∀ (key : Str) (procMs : Nat) (oracle : Str → Except Str P3.ClaudeAnalysis) (text : Str),
      text.length < 500 →
      ∃ err, P3.serve (some key) procMs oracle text = (P3.Out.err 400 err none, 0)) ∧
    (∀ text : Str, text.length < 500 → ∃ msg, P6.shortDocGuard text = some (400, msg)) := by
  refine ⟨?_, ?_, ?_⟩
  · intro apiKey sha cache now procMs o text h
    have ht : (JS.trimStr text).length < V3.minLength :=
      lt_of_le_of_lt (trim_length_le text) (by simpa [V3.minLength] using h)
    unfold V3.serve
    rw [if_pos ht]
  · intro key procMs oracle text h
    by_cases he : text = []
    · exact ⟨"No policy text provided".toList, by simp [P3.serve, he]⟩
    · refine ⟨"Document too short. Please upload complete policy.".toList, ?_⟩
      have hv : P3.validateDocument text =
          { valid := false,
            error := some "Document too short. Please upload complete policy.".toList } := by
        unfold P3.validateDocument
        rw [if_pos h]
      unfold P3.serve
      rw [if_neg he]
      simp [hv]
  · intro text h
    have ht : (JS.trimStr text).length < 500 :=
      lt_of_le_of_lt (trim_length_le text) h
    exact ⟨_, by unfold P6.shortDocGuard; rw [if_pos ht]⟩

/-- An oracle whose calls all fail, for the C7 witness (the point of the
witness being that the oracle is never consulted). -/
def c7oracle : V3.Oracle :=
  { validate := fun _ => Except.error [],
    extract := fun _ _ => Except.error [],
    judge := fun _ => Except.error [] }

/-- C7 (witness): the theorem applied to a 9-character document. -/
theorem c7_witness :
    ("too short".toList.length < 500) ∧
    V3.serve none (fun s => s) [] 0 0 c7oracle "too short".toList =
      (V3.ServeOut.err 400
        { error := "Document too short. Upload a complete policy.".toList }, 0, []) ∧
    (∃ err, P3.serve (some "k".toList) 0 (fun _ => Except.error [])
      "too short".toList = (P3.Out.err 400 err none, 0)) ∧
    (∃ msg, P6.shortDocGuard "too short".toList = some (400, msg)) := by
  have h : "too short".toList.length < 500 := by decide
  exact ⟨h,
    c7_short_document_no_llm.1 none (fun s => s) [] 0 0 c7oracle "too short".toList h,
    c7_short_document_no_llm.2.1 "k".toList 0 (fun _ => Except.error []) "too short".toList h,
    c7_short_document_no_llm.2.2 "too short".toList h⟩

/-! ## C5 — keyword-density failures and the `invalid_document` error -/

/-- A 500-character document with no health-insurance keyword at all: long
enough to pass the length check, failing only the keyword-density check. -/
def c5doc : Str := List.replicate 500 'a'

set_option maxRecDepth 40000

/-- C5 (counterexample): the claim says a keyword-density failure makes the
endpoint answer `400` with error field exactly `"invalid_document"`.  In
revision 4.0.0 (`part_004`), whose keyword-density check is the cited
`validateDocument`, the concrete keyword-free document `c5doc` passes the
length check, triggers the density check, and the endpoint answers `400`
with a *descriptive sentence* in the error field — not the string
`"invalid_document"`. -/
theorem c5_counterexample :
    P4.serveValidation c5doc =
      some (400, "This doesn".toList ++ ['\''] ++
        ("t appear to be a health insurance policy document. " ++
         "Please upload a policy wording or schedule.").toList) ∧
    ("This doesn".toList ++ ['\''] ++
      ("t appear to be a health insurance policy document. " ++
       "Please upload a policy wording or schedule.").toList) ≠
      "invalid_document".toList := by
  exact ⟨by decide, by decide⟩

/-- C5 (amended): a document whose keyword density is below the minimum is
answered with status 400 in both embedded revisions, but the error field
differs: revision 4.0.0 answers with a descriptive message, while the
hybrid revision 3.1.0 answers with the literal `"invalid_document"`
whenever its code check definitely rejects (which includes every document
with fewer than three health keywords in the 4 000-character validation
sample) — without consulting the Gemini oracle. -/
theorem c5_density_rejection :
    (∀ text : Str, ¬ text.length < 500 →
      (P4.wrongDocKeywords.filter (fun kw =>
        JS.includesStr (JS.toLowerStr (JS.substringTo text 10000)) kw)).length < 2 →
      (P4.healthKeywords.filter (fun kw =>
        JS.includesStr (JS.toLowerStr (JS.substringTo text 10000)) kw)).length <
          P4.minHealthKeywords →
      P4.serveValidation text =
        some (400, "This doesn".toList ++ ['\''] ++
          ("t appear to be a health insurance policy document. " ++
           "Please upload a policy wording or schedule.").toList)) ∧
    (∀ (text : Str) (oracle : Str → Except Str P5.GemVal),
      (P5.validateWithCode (JS.substringTo text 4000)).definitelyInvalid = true →
      ∃ msg, P5.serveValidationStep text oracle =
        Except.ok (some (400, "invalid_document".toList, msg))) := by
  constructor
  · intro text h1 h2 h3
    have hv : P4.validateDocument text =
        { valid := false,
          error := some ("This doesn".toList ++ ['\''] ++
            ("t appear to be a health insurance policy document. " ++
             "Please upload a policy wording or schedule.").toList) } := by
      unfold P4.validateDocument
      rw [if_neg h1]
      simp only []
      rw [if_neg (show ¬ (P4.wrongDocKeywords.filter (fun kw =>
          JS.includesStr (JS.toLowerStr (JS.substringTo text 10000)) kw)).length ≥ 2
          from by omega),
        if_pos h3]
    simp [P4.serveValidation, hv]
  · intro text oracle hinv
    refine ⟨"Not a health insurance document. Detected: ".toList ++
      (P5.validateWithCode (JS.substringTo text 4000)).documentType ++ ". ".toList ++
      (P5.validateWithCode (JS.substringTo text 4000)).reason, ?_⟩
    unfold P5.serveValidationStep P5.validateDocument
    simp only []
    rw [if_pos hinv]
    simp

/-- C5 (witness): the amended theorem applied to the concrete keyword-free
document `c5doc`. -/
theorem c5_witness :
    ((¬ c5doc.length < 500) ∧
     (P4.wrongDocKeywords.filter (fun kw =>
       JS.includesStr (JS.toLowerStr (JS.substringTo c5doc 10000)) kw)).length < 2 ∧
     (P4.healthKeywords.filter (fun kw =>
       JS.includesStr (JS.toLowerStr (JS.substringTo c5doc 10000)) kw)).length <
         P4.minHealthKeywords ∧
     (P5.validateWithCode (JS.substringTo c5doc 4000)).definitelyInvalid = true) ∧
    P4.serveValidation c5doc =
      some (400, "This doesn".toList ++ ['\''] ++
        ("t appear to be a health insurance policy document. " ++
         "Please upload a policy wording or schedule.").toList) ∧
    (∃ msg, P5.serveValidationStep c5doc (fun _ => Except.error []) =
      Except.ok (some (400, "invalid_document".toList, msg))) := by
  have h1 : ¬ c5doc.length < 500 := by decide
  have h2 : (P4.wrongDocKeywords.filter (fun kw =>
      JS.includesStr (JS.toLowerStr (JS.substringTo c5doc 10000)) kw)).length < 2 := by
    decide
  have h3 : (P4.healthKeywords.filter (fun kw =>
      JS.includesStr (JS.toLowerStr (JS.substringTo c5doc 10000)) kw)).length <
        P4.minHealthKeywords := by decide
  have h4 : (P5.validateWithCode (JS.substringTo c5doc 4000)).definitelyInvalid = true := by
    decide
  exact ⟨⟨h1, h2, h3, h4⟩,
    c5_density_rejection.1 c5doc h1 h2 h3,
    c5_density_rejection.2 c5doc (fun _ => Except.error []) h4⟩

def mergeBest (a : Option V3.FeatEntry) (xs : List (Option V3.FeatEntry)) :
    Option V3.FeatEntry :=
  xs.foldl V3.mergeFeatStep a

theorem mergeBest_cons (a x : Option V3.FeatEntry) (xs : List (Option V3.FeatEntry)) :
    mergeBest a (x :: xs) = mergeBest (V3.mergeFeatStep a x) xs := rfl

def foundEntries (entries : List (Option V3.FeatEntry)) : List V3.FeatEntry :=
  (entries.filterMap id).filter (fun f => f.found)

theorem mergeFeatStep_cases (a x : Option V3.FeatEntry) :
    V3.mergeFeatStep a x = a ∨ V3.mergeFeatStep a x = x := by
  cases x with
  | none => exact Or.inl rfl
  | some f =>
    simp only [V3.mergeFeatStep]
    by_cases h : f.found = true ∧ (V3.foundOf a = false ∨ f.quoteLen > V3.qlenOf a)
    · rw [if_pos h]
      exact Or.inr rfl
    · rw [if_neg h]
      exact Or.inl rfl

theorem foundOf_mergeFeatStep (a x : Option V3.FeatEntry) :
    V3.foundOf (V3.mergeFeatStep a x) = (V3.foundOf a || V3.foundOf x) := by
  cases x with
  | none => simp [V3.mergeFeatStep, V3.foundOf]
  | some f =>
    simp only [V3.mergeFeatStep]
    split_ifs with h
    · simp [V3.foundOf, h.1]
    · by_cases hf : f.found = true
      · have ha : V3.foundOf a = true := by
          by_contra hna
          exact h ⟨hf, Or.inl (by simpa using hna)⟩
        rw [ha]
        simp
      · simp [V3.foundOf, Bool.eq_false_iff.mpr hf]

theorem qlen_le_mergeFeatStep_left (a x : Option V3.FeatEntry)
    (ha : V3.foundOf a = true) :
    V3.qlenOf a ≤ V3.qlenOf (V3.mergeFeatStep a x) := by
  cases x with
  | none => exact le_refl _
  | some f =>
    simp only [V3.mergeFeatStep]
    split_ifs with h
    · rcases h.2 with h2 | h2
      · rw [ha] at h2
        simp at h2
      · exact le_of_lt h2
    · exact le_refl _

theorem qlen_le_mergeFeatStep_right (a x : Option V3.FeatEntry)
    (hx : V3.foundOf x = true) :
    V3.qlenOf x ≤ V3.qlenOf (V3.mergeFeatStep a x) := by
  cases x with
  | none => simp [V3.foundOf] at hx
  | some f =>
    have hf : f.found = true := by simpa [V3.foundOf] using hx
    simp only [V3.mergeFeatStep]
    split_ifs with h
    · exact le_refl _
    · have hB : ¬(V3.foundOf a = false ∨ f.quoteLen > V3.qlenOf a) :=
        fun hb => h ⟨hf, hb⟩
      push_neg at hB
      simpa [V3.qlenOf] using hB.2

theorem mergeBest_mem (a : Option V3.FeatEntry) (xs : List (Option V3.FeatEntry)) :
    mergeBest a xs ∈ a :: xs := by
  induction xs generalizing a with
  | nil => simp [mergeBest]
  | cons x xs ih =>
    rw [mergeBest_cons]
    rcases List.mem_cons.mp (ih (V3.mergeFeatStep a x)) with h | h
    · rcases mergeFeatStep_cases a x with hs | hs
      · rw [h, hs]
        exact List.mem_cons_self _ _
      · rw [h, hs]
        exact List.mem_cons_of_mem _ (List.mem_cons_self _ _)
    · exact List.mem_cons_of_mem _ (List.mem_cons_of_mem _ h)

theorem foundOf_mergeBest (a : Option V3.FeatEntry) (xs : List (Option V3.FeatEntry)) :
    V3.foundOf (mergeBest a xs) = (a :: xs).any (fun e => V3.foundOf e) := by
  induction xs generalizing a with
  | nil => simp [mergeBest]
  | cons x xs ih =>
    rw [mergeBest_cons, ih]
    simp [foundOf_mergeFeatStep, Bool.or_assoc]

theorem qlen_le_mergeBest (a : Option V3.FeatEntry) (xs : List (Option V3.FeatEntry)) :
    ∀ y ∈ a :: xs, V3.foundOf y = true → V3.qlenOf y ≤ V3.qlenOf (mergeBest a xs) := by
  induction xs generalizing a with
  | nil =>
    intro y hy hf
    rcases List.mem_cons.mp hy with h | h
    · rw [h]
      exact le_refl _
    · simp at h
  | cons x xs ih =>
    intro y hy hf
    rw [mergeBest_cons]
    rcases List.mem_cons.mp hy with h | h
    · have hfa : V3.foundOf a = true := h ▸ hf
      have hfs : V3.foundOf (V3.mergeFeatStep a x) = true := by
        rw [foundOf_mergeFeatStep, hfa]
        simp
      calc V3.qlenOf y = V3.qlenOf a := by rw [h]
        _ ≤ V3.qlenOf (V3.mergeFeatStep a x) :=
            qlen_le_mergeFeatStep_left a x hfa
        _ ≤ _ := ih (V3.mergeFeatStep a x) _ (List.mem_cons_self _ _) hfs
    · rcases List.mem_cons.mp h with h2 | h2
      · have hfx : V3.foundOf x = true := h2 ▸ hf
        have hfs : V3.foundOf (V3.mergeFeatStep a x) = true := by
          rw [foundOf_mergeFeatStep, hfx]
          simp
        calc V3.qlenOf y = V3.qlenOf x := by rw [h2]
          _ ≤ V3.qlenOf (V3.mergeFeatStep a x) :=
              qlen_le_mergeFeatStep_right a x hfx
          _ ≤ _ := ih (V3.mergeFeatStep a x) _ (List.mem_cons_self _ _) hfs
      · exact ih (V3.mergeFeatStep a x) y (List.mem_cons_of_mem _ h2) hf

theorem mem_foundEntries {l : List (Option V3.FeatEntry)} {f : V3.FeatEntry} :
    f ∈ foundEntries l ↔ some f ∈ l ∧ f.found = true := by
  simp [foundEntries, List.mem_filter, List.mem_filterMap]

theorem mergeFeatStep_eq6 (a x : Option V3.FeatEntry) :
    P6.mergeFeatStep a x = V3.mergeFeatStep a x := by
  cases x with
  | none => rfl
  | some f =>
    simp only [P6.mergeFeatStep, V3.mergeFeatStep]
    split_ifs <;>
      first
      | rfl
      | (rcases Bool.eq_false_or_eq_true (V3.foundOf a) with hfa | hfa <;> tauto)

theorem mergeExtractions_features (e : V3.Extraction) (rest : List V3.Extraction)
    (k : Str) :
    (rest.foldl V3.mergeStep e).features k =
      mergeBest (e.features k) (rest.map (fun x => x.features k)) := by
  induction rest generalizing e with
  | nil => rfl
  | cons x rest ih =>
    rw [List.foldl_cons, ih (V3.mergeStep e x), List.map_cons, mergeBest_cons]
    rfl

theorem foldl_mergeFeatStep6 (a : Option V3.FeatEntry) (rest : List P6.Extraction)
    (k : Str) :
    rest.foldl (fun cur ext => P6.mergeFeatStep cur (ext.features k)) a =
      mergeBest a (rest.map (fun x => x.features k)) := by
  induction rest generalizing a with
  | nil => rfl
  | cons x rest ih =>
    rw [List.foldl_cons, ih, mergeFeatStep_eq6, List.map_cons, mergeBest_cons]

theorem foundEntries_eq_nil_any {l : List (Option V3.FeatEntry)}
    (h : foundEntries l = []) : l.any (fun e => V3.foundOf e) = false := by
  rw [List.any_eq_false]
  intro e he
  cases e with
  | none => simp [V3.foundOf]
  | some f =>
    intro hb
    have hf : f.found = true := by simpa [V3.foundOf] using hb
    have : f ∈ foundEntries l := mem_foundEntries.mpr ⟨he, hf⟩
    rw [h] at this
    simp at this

theorem foundEntries_ne_nil_any {l : List (Option V3.FeatEntry)}
    (h : foundEntries l ≠ []) : l.any (fun e => V3.foundOf e) = true := by
  obtain ⟨f, hf⟩ := List.exists_mem_of_ne_nil _ h
  rcases mem_foundEntries.mp hf with ⟨hm, hfd⟩
  rw [List.any_eq_true]
  exact ⟨some f, hm, by simpa [V3.foundOf] using hfd⟩

theorem mergeBest_spec (a : Option V3.FeatEntry) (xs : List (Option V3.FeatEntry)) :
    (foundEntries (a :: xs) ≠ [] →
      ∃ en, mergeBest a xs = some en ∧ en.found = true ∧
        en ∈ foundEntries (a :: xs) ∧
        ∀ en2 ∈ foundEntries (a :: xs), en2.quoteLen ≤ en.quoteLen) ∧
    (foundEntries (a :: xs) = [] → V3.foundOf (mergeBest a xs) = false) := by
  constructor
  · intro hne
    have hfound : V3.foundOf (mergeBest a xs) = true := by
      rw [foundOf_mergeBest]
      exact foundEntries_ne_nil_any hne
    cases hb : mergeBest a xs with
    | none =>
      rw [hb] at hfound
      simp [V3.foundOf] at hfound
    | some en =>
      rw [hb] at hfound
      have hen : en.found = true := by simpa [V3.foundOf] using hfound
      have hmem : some en ∈ a :: xs := by
        rw [← hb]
        exact mergeBest_mem a xs
      refine ⟨en, rfl, hen, mem_foundEntries.mpr ⟨hmem, hen⟩, ?_⟩
      intro en2 hen2
      rcases mem_foundEntries.mp hen2 with ⟨hm2, hf2⟩
      have hle := qlen_le_mergeBest a xs (some en2) hm2
        (by simpa [V3.foundOf] using hf2)
      rw [hb] at hle
      simpa [V3.qlenOf] using hle
  · intro hnil
    rw [foundOf_mergeBest]
    exact foundEntries_eq_nil_any hnil

/-- C6: for every non-empty list of per-chunk extractions, the merged
result's entry at each feature key is, whenever some chunk reported the
feature as `found`, itself a `found` entry drawn from the chunks whose
quote length is maximal among all `found` entries for that key; when no
chunk found the feature the merged entry is not `found` (so a
`found = false` entry never overrides a `found` one).  Both for
`index.ts` v3.0.0 and for the `part_006` revision. -/
theorem c6_merge_prefers_longest_found :
    (∀ (e : V3.Extraction) (rest : List V3.Extraction) (m : V3.Extraction) (k : Str),
      V3.mergeExtractions (e :: rest) = some m →
      (foundEntries (e.features k :: rest.map (fun x => x.features k)) ≠ [] →
        ∃ en, m.features k = some en ∧ en.found = true ∧
          en ∈ foundEntries (e.features k :: rest.map (fun x => x.features k)) ∧
          ∀ en2 ∈ foundEntries (e.features k :: rest.map (fun x => x.features k)),
            en2.quoteLen ≤ en.quoteLen) ∧
      (foundEntries (e.features k :: rest.map (fun x => x.features k)) = [] →
        V3.foundOf (m.features k) = false)) ∧
    (∀ (e : P6.Extraction) (rest : List P6.Extraction) (m : P6.Extraction) (k : Str),
      P6.mergeExtractions (e :: rest) = some m →
      (foundEntries (e.features k :: rest.map (fun x => x.features k)) ≠ [] →
        ∃ en, m.features k = some en ∧ en.found = true ∧
          en ∈ foundEntries (e.features k :: rest.map (fun x => x.features k)) ∧
          ∀ en2 ∈ foundEntries (e.features k :: rest.map (fun x => x.features k)),
            en2.quoteLen ≤ en.quoteLen) ∧
      (foundEntries (e.features k :: rest.map (fun x => x.features k)) = [] →
        V3.foundOf (m.features k) = false)) := by
  constructor
  · intro e rest m k hm
    have hmk : m.features k =
        mergeBest (e.features k) (rest.map (fun x => x.features k)) := by
      have : m = rest.foldl V3.mergeStep e := by
        simpa [V3.mergeExtractions] using hm.symm
      rw [this, mergeExtractions_features]
    rw [hmk]
    exact mergeBest_spec (e.features k) (rest.map (fun x => x.features k))
  · intro e rest m k hm
    have hmk : m.features k =
        mergeBest (e.features k) (rest.map (fun x => x.features k)) := by
      have hm2 : some _ = some m := hm
      have := Option.some.inj hm2
      rw [← this]
      simpa using foldl_mergeFeatStep6 (e.features k) rest k
    rw [hmk]
    exact mergeBest_spec (e.features k) (rest.map (fun x => x.features k))

def c6e1 : V3.Extraction :=
  { policyInfo := fun _ => none,
    features := fun k =>
      if k = "pedWaiting".toList then
        some { found := true, quote := some "36 months".toList }
      else none,
    uniqueFeatures := [],
    unclearClauses := [] }

def c6e2 : V3.Extraction :=
  { policyInfo := fun _ => none,
    features := fun k =>
      if k = "pedWaiting".toList then
        some { found := true, quote := some "36 months waiting period applies".toList }
      else none,
    uniqueFeatures := [],
    unclearClauses := [] }

def c6m : V3.Extraction := [c6e2].foldl V3.mergeStep c6e1

theorem c6_witness :
    ∃ en, c6m.features "pedWaiting".toList = some en ∧ en.found = true ∧
      en ∈ foundEntries (c6e1.features "pedWaiting".toList ::
        [c6e2].map (fun x => x.features "pedWaiting".toList)) ∧
      ∀ en2 ∈ foundEntries (c6e1.features "pedWaiting".toList ::
        [c6e2].map (fun x => x.features "pedWaiting".toList)),
        en2.quoteLen ≤ en.quoteLen :=
  (c6_merge_prefers_longest_found.1 c6e1 [c6e2] c6m "pedWaiting".toList rfl).1
    (by simp [foundEntries, c6e1, c6e2])

theorem chunkBoundsAux_nil (endFn : Nat → Nat) (overlap len start fuel : Nat)
    (h : ¬ start < len) : chunkBoundsAux endFn overlap len start fuel = [] := by
  cases fuel with
  | zero => rfl
  | succ fuel => simp [chunkBoundsAux, h]

theorem chunkBoundsAux_length (endFn : Nat → Nat) (overlap len : Nat) :
    ∀ (fuel start : Nat), (chunkBoundsAux endFn overlap len start fuel).length ≤ fuel := by
  intro fuel
  induction fuel with
  | zero =>
    intro start
    simp [chunkBoundsAux]
  | succ fuel ih =>
    intro start
    by_cases h : start < len
    · simp only [chunkBoundsAux, if_pos h, List.length_cons]
      exact Nat.succ_le_succ (ih _)
    · simp [chunkBoundsAux, h]

theorem chunkBoundsAux_chained (endFn : Nat → Nat) (overlap len : Nat) :
    ∀ (fuel start : Nat),
      Chained overlap start (chunkBoundsAux endFn overlap len start fuel) := by
  intro fuel
  induction fuel with
  | zero =>
    intro start
    simp [chunkBoundsAux, Chained]
  | succ fuel ih =>
    intro start
    by_cases h : start < len
    · simp only [chunkBoundsAux, if_pos h]
      exact ⟨rfl, ih _⟩
    · simp [chunkBoundsAux, h, Chained]

theorem lastEnd_cons (p : Nat × Nat) (l : List (Nat × Nat)) (d : Nat) :
    lastEnd (p :: l) d = lastEnd l p.2 := by
  cases p
  rfl

theorem chunkBoundsAux_cover (endFn : Nat → Nat) (overlap len : Nat) :
    ∀ (fuel start j : Nat), start ≤ j →
      j < lastEnd (chunkBoundsAux endFn overlap len start fuel) start →
      ∃ p ∈ chunkBoundsAux endFn overlap len start fuel, p.1 ≤ j ∧ j < p.2 := by
  intro fuel
  induction fuel with
  | zero =>
    intro start j hsj hlt
    simp only [chunkBoundsAux, lastEnd] at hlt
    omega
  | succ fuel ih =>
    intro start j hsj hlt
    by_cases h : start < len
    · simp only [chunkBoundsAux, if_pos h] at hlt ⊢
      rw [lastEnd_cons] at hlt
      by_cases hj : j < endFn start
      · exact ⟨(start, endFn start), List.mem_cons_self _ _, hsj, hj⟩
      · cases hrest : chunkBoundsAux endFn overlap len (endFn start - overlap) fuel with
        | nil =>
          rw [hrest] at hlt
          simp only [lastEnd] at hlt
          omega
        | cons q t =>
          have hlt2 : j < lastEnd
              (chunkBoundsAux endFn overlap len (endFn start - overlap) fuel)
              (endFn start - overlap) := by
            rw [hrest, lastEnd_cons]
            rw [hrest, lastEnd_cons] at hlt
            exact hlt
          obtain ⟨p, hp, hp2⟩ := ih (endFn start - overlap) j (by omega) hlt2
          rw [hrest] at hp
          exact ⟨p, List.mem_cons_of_mem _ hp, hp2⟩
    · rw [chunkBoundsAux_nil endFn overlap len start _ h] at hlt
      simp only [lastEnd] at hlt
      omega

theorem chunkBoundsAux_exhaust (endFn : Nat → Nat) (overlap len : Nat) :
    ∀ (fuel start : Nat), start < len →
      (chunkBoundsAux endFn overlap len start fuel).length < fuel →
      len ≤ lastEnd (chunkBoundsAux endFn overlap len start fuel) start := by
  intro fuel
  induction fuel with
  | zero =>
    intro start h hl
    simp [chunkBoundsAux] at hl
  | succ fuel ih =>
    intro start h hl
    simp only [chunkBoundsAux, if_pos h] at hl ⊢
    rw [lastEnd_cons]
    simp only [List.length_cons] at hl
    have hl2 : (chunkBoundsAux endFn overlap len (endFn start - overlap) fuel).length
        < fuel := by omega
    by_cases h2 : endFn start - overlap < len
    · have hrec := ih (endFn start - overlap) h2 hl2
      cases hrest : chunkBoundsAux endFn overlap len (endFn start - overlap) fuel with
      | nil =>
        rw [hrest] at hrec
        simp only [lastEnd] at hrec ⊢
        omega
      | cons q t =>
        rw [hrest] at hrec
        rw [lastEnd_cons] at hrec ⊢
        exact hrec
    · rw [chunkBoundsAux_nil endFn overlap len _ fuel h2]
      simp only [lastEnd]
      omega

theorem chunkBoundsAux_congr (f g : Nat → Nat) (overlap len : Nat)
    (hfg : ∀ s, f s = g s) :
    ∀ (fuel start : Nat),
      chunkBoundsAux f overlap len start fuel =
        chunkBoundsAux g overlap len start fuel := by
  intro fuel
  induction fuel with
  | zero =>
    intro start
    rfl
  | succ fuel ih =>
    intro start
    by_cases h : start < len
    · simp only [chunkBoundsAux, if_pos h, hfg, ih]
    · simp [chunkBoundsAux, h]

theorem startsWith_replicate_nn (k : Nat) :
    JS.startsWith (List.replicate k 'a') ['\n', '\n'] = false := by
  cases k with
  | zero => rfl
  | succ k =>
    rw [List.replicate_succ]
    simp [JS.startsWith]

theorem startsWith_replicate_dot (k : Nat) :
    JS.startsWith (List.replicate k 'a') ['.', ' '] = false := by
  cases k with
  | zero => rfl
  | succ k =>
    rw [List.replicate_succ]
    simp [JS.startsWith]

theorem jsLastIndexOf_replicate_nn (n : Nat) :
    ∀ pos, jsLastIndexOf (List.replicate n 'a') ['\n', '\n'] pos = none := by
  intro pos
  induction pos with
  | zero => simp [jsLastIndexOf, startsWith_replicate_nn n]
  | succ pos ih =>
    rw [jsLastIndexOf, List.drop_replicate, startsWith_replicate_nn]
    simpa using ih

theorem jsLastIndexOf_replicate_dot (n : Nat) :
    ∀ pos, jsLastIndexOf (List.replicate n 'a') ['.', ' '] pos = none := by
  intro pos
  induction pos with
  | zero => simp [jsLastIndexOf, startsWith_replicate_dot n]
  | succ pos ih =>
    rw [jsLastIndexOf, List.drop_replicate, startsWith_replicate_dot]
    simpa using ih

theorem chunkEnd_replicate (n s : Nat) :
    V3.chunkEnd (List.replicate n 'a') s = s + 100000 := by
  simp only [V3.chunkEnd]
  rw [show ("\n\n".toList : Str) = ['\n', '\n'] from rfl]
  split_ifs with h
  · rw [jsLastIndexOf_replicate_nn]
    rfl
  · rfl

theorem chunkEnd6_replicate (n s : Nat) :
    P6.chunkEnd (List.replicate n 'a') s = s + 100000 := by
  simp only [P6.chunkEnd]
  rw [show ("\n\n".toList : Str) = ['\n', '\n'] from rfl,
    show (". ".toList : Str) = ['.', ' '] from rfl]
  split_ifs with h
  · rw [jsLastIndexOf_replicate_nn, jsLastIndexOf_replicate_dot]
  · rfl

def c2T : Str := List.replicate 500000 'a'

theorem chunkBounds_c2T :
    V3.chunkBounds c2T = [(0, 100000), (98000, 198000), (196000, 296000),
      (294000, 394000), (392000, 492000)] := by
  unfold c2T V3.chunkBounds
  rw [chunkBoundsAux_congr (V3.chunkEnd (List.replicate 500000 'a'))
    (fun s => s + 100000) V3.chunkOverlap (List.replicate 500000 'a').length
    (chunkEnd_replicate 500000) V3.maxChunks 0]
  rw [show (List.replicate 500000 'a').length = 500000 from by rw [List.length_replicate]]
  decide

theorem chunkBounds6_c2T :
    P6.chunkBounds c2T = [(0, 100000), (98000, 198000), (196000, 296000),
      (294000, 394000), (392000, 492000)] := by
  unfold c2T P6.chunkBounds
  rw [chunkBoundsAux_congr (P6.chunkEnd (List.replicate 500000 'a'))
    (fun s => s + 100000) 2000 (List.replicate 500000 'a').length
    (chunkEnd6_replicate 500000) 5 0]
  rw [show (List.replicate 500000 'a').length = 500000 from by rw [List.length_replicate]]
  decide

/-- C2 (counterexample): the full-coverage part of the claim is false.
For the 500000-character document `c2T` both `chunkDocument`
implementations stop at the `maxChunks = 5` cap with the last window
ending at 492000, so index 492000 of the text lies in no window even
though the text is longer than `chunkSize`. -/
theorem c2_counterexample :
    V3.chunkSize < c2T.length ∧
    V3.chunkDocument c2T =
      (V3.chunkBounds c2T).map (fun p => JS.substring c2T p.1 p.2) ∧
    (V3.chunkBounds c2T).length = V3.maxChunks ∧
    (P6.chunkBounds c2T).length = 5 ∧
    492000 < c2T.length ∧
    (∀ p ∈ V3.chunkBounds c2T, ¬(p.1 ≤ 492000 ∧ 492000 < p.2)) ∧
    (∀ p ∈ P6.chunkBounds c2T, ¬(p.1 ≤ 492000 ∧ 492000 < p.2)) := by
  have hlen : c2T.length = 500000 := by
    unfold c2T
    rw [List.length_replicate]
  refine ⟨?_, ?_, ?_, ?_, ?_, ?_, ?_⟩
  · rw [hlen]
    norm_num [V3.chunkSize]
  · unfold V3.chunkDocument
    rw [if_neg (by rw [hlen]; norm_num [V3.chunkSize])]
  · rw [chunkBounds_c2T]
    rfl
  · rw [chunkBounds6_c2T]
    rfl
  · rw [hlen]
    norm_num
  · rw [chunkBounds_c2T]
    decide
  · rw [chunkBounds6_c2T]
    decide

/-- C2 (amended): for every text longer than `chunkSize`, both
`chunkDocument` implementations return exactly the substring windows of
`chunkBounds`; there are at most `maxChunks = 5` windows; consecutive
windows are chained, each next window starting `chunkOverlap = 2000`
characters before the previous window's end; the windows jointly cover
every index below the last window's end; and whenever the loop stops
before exhausting `maxChunks` that coverage reaches the end of the text
(full coverage can fail only when the cap is hit, see the
counterexample). -/
theorem c2_chunk_properties (text : Str) (h : V3.chunkSize < text.length) :
    (V3.chunkDocument text =
        (V3.chunkBounds text).map (fun p => JS.substring text p.1 p.2) ∧
      (V3.chunkBounds text).length ≤ V3.maxChunks ∧
      Chained V3.chunkOverlap 0 (V3.chunkBounds text) ∧
      (∀ j, j < lastEnd (V3.chunkBounds text) 0 →
        ∃ p ∈ V3.chunkBounds text, p.1 ≤ j ∧ j < p.2) ∧
      ((V3.chunkBounds text).length < V3.maxChunks →
        text.length ≤ lastEnd (V3.chunkBounds text) 0)) ∧
    (P6.chunkDocument text =
        (P6.chunkBounds text).map (fun p => JS.substring text p.1 p.2) ∧
      (P6.chunkBounds text).length ≤ 5 ∧
      Chained 2000 0 (P6.chunkBounds text) ∧
      (∀ j, j < lastEnd (P6.chunkBounds text) 0 →
        ∃ p ∈ P6.chunkBounds text, p.1 ≤ j ∧ j < p.2) ∧
      ((P6.chunkBounds text).length < 5 →
        text.length ≤ lastEnd (P6.chunkBounds text) 0)) := by
  have h2 : 100000 < text.length := h
  constructor
  · refine ⟨?_, ?_, ?_, ?_, ?_⟩
    · unfold V3.chunkDocument
      rw [if_neg (Nat.not_le.mpr h)]
    · exact chunkBoundsAux_length _ _ _ _ _
    · exact chunkBoundsAux_chained _ _ _ _ _
    · intro j hj
      exact chunkBoundsAux_cover _ _ _ _ _ j (Nat.zero_le j) hj
    · intro hlen
      exact chunkBoundsAux_exhaust _ _ _ _ _ (by omega) hlen
  · refine ⟨?_, ?_, ?_, ?_, ?_⟩
    · unfold P6.chunkDocument
      rw [if_neg (Nat.not_le.mpr h2)]
    · exact chunkBoundsAux_length _ _ _ _ _
    · exact chunkBoundsAux_chained _ _ _ _ _
    · intro j hj
      exact chunkBoundsAux_cover _ _ _ _ _ j (Nat.zero_le j) hj
    · intro hlen
      exact chunkBoundsAux_exhaust _ _ _ _ _ (by omega) hlen

def c2W : Str := List.replicate 100001 'a'

theorem c2_witness :
    V3.chunkSize < c2W.length ∧
    ((V3.chunkDocument c2W =
        (V3.chunkBounds c2W).map (fun p => JS.substring c2W p.1 p.2) ∧
      (V3.chunkBounds c2W).length ≤ V3.maxChunks ∧
      Chained V3.chunkOverlap 0 (V3.chunkBounds c2W) ∧
      (∀ j, j < lastEnd (V3.chunkBounds c2W) 0 →
        ∃ p ∈ V3.chunkBounds c2W, p.1 ≤ j ∧ j < p.2) ∧
      ((V3.chunkBounds c2W).length < V3.maxChunks →
        c2W.length ≤ lastEnd (V3.chunkBounds c2W) 0)) ∧
    (P6.chunkDocument c2W =
        (P6.chunkBounds c2W).map (fun p => JS.substring c2W p.1 p.2) ∧
      (P6.chunkBounds c2W).length ≤ 5 ∧
      Chained 2000 0 (P6.chunkBounds c2W) ∧
      (∀ j, j < lastEnd (P6.chunkBounds c2W) 0 →
        ∃ p ∈ P6.chunkBounds c2W, p.1 ≤ j ∧ j < p.2) ∧
      ((P6.chunkBounds c2W).length < 5 →
        c2W.length ≤ lastEnd (P6.chunkBounds c2W) 0))) :=
  ⟨by unfold c2W V3.chunkSize; rw [List.length_replicate]; norm_num,
   c2_chunk_properties c2W
     (by unfold c2W V3.chunkSize; rw [List.length_replicate]; norm_num)⟩
